import Mathlib

/-!
Verification of the shield-qr-styler rendering pipeline (`src/index.js`,
the library module exporting `generateShapeQR`).  The JavaScript source is
shallowly embedded: numbers are exact rationals (`ℚ`), JS 32-bit integer
operations (`| 0`, `Math.imul`, `>>> 0`) are modelled with explicit
wrap-around arithmetic on `ℤ`, strings are Lean `String`s, and the QR
matrix produced by the external `qrcode` encoder is an explicit `Grid`
parameter.  `Math.sin` / `Math.cos` / `Math.sqrt` (whose float values are
not rational-definable) are supplied by an oracle structure `JsMath`; no
claim below depends on the oracle's values.  Number-to-string conversion
is modelled as exact decimal rendering (faithful for every terminating
decimal the pipeline produces via `toFixed`).
-/

namespace QRStyler

/-! ## JS numeric primitives -/

/-- `Math.round`: round half towards positive infinity. -/
def jsRound (q : ℚ) : ℤ := Int.floor (q + 1/2)

/-- Rounding used by `Number.prototype.toFixed`: half away from zero
(idealized over exact rationals). -/
def roundAway (q : ℚ) : ℤ :=
  if q < 0 then -Int.floor (-q + 1/2) else Int.floor (q + 1/2)

/-- Truncation towards zero (JS `ToIntegerOrInfinity` on a finite value). -/
def jsTrunc (q : ℚ) : ℤ :=
  if q < 0 then -Int.floor (-q) else Int.floor q

/-- Wrap an integer into the signed 32-bit range (JS `ToInt32` on an integer). -/
def wrap32 (n : ℤ) : ℤ := (n + 2 ^ 31) % 2 ^ 32 - 2 ^ 31

/-- JS `x | 0` on a (here: exact rational) number. -/
def jsToInt32 (q : ℚ) : ℤ := wrap32 (jsTrunc q)

/-- JS `Math.imul`: 32-bit signed integer multiplication. -/
def jsImul (a b : ℤ) : ℤ := wrap32 (a * b)

/-- JS `x >>> 0`: reinterpret as unsigned 32-bit. -/
def jsToUint32 (n : ℤ) : ℤ := n % 2 ^ 32

/-- The double-precision value of `Math.PI`, as an exact rational. -/
def MATH_PI : ℚ := 884279719003555 / 281474976710656

/-! ## JS number → string rendering

JS renders numbers with the shortest decimal that round-trips.  All
numbers this pipeline prints either are integers or come out of
`toFixed`, so they have terminating decimal expansions, which we render
exactly (minimal digits, no trailing zeros).  For a non-terminating
rational (reachable only through adversarial configuration values that
no claim exercises) we fall back to a 17-digit rounded rendering. -/

/-- Decimal digits of `n` left-padded with zeros to width `d`. -/
def decPad (n d : ℕ) : String :=
  let s := toString n
  String.mk (List.replicate (d - s.length) '0') ++ s

/-- The least number of decimal places (searched up to 64) that writes `q`
exactly, if any. -/
def decLen (q : ℚ) : Option ℕ :=
  (List.range 65).find? fun d => (q * (10 : ℚ) ^ d).den = 1

/-- Exact decimal rendering of a non-negative rational with minimal digits. -/
def numToStringNN (q : ℚ) : String :=
  match decLen q with
  | some 0 => toString q.num
  | some d =>
      let scaled := (q * (10 : ℚ) ^ d).num.natAbs
      toString (scaled / 10 ^ d) ++ "." ++ decPad (scaled % 10 ^ d) d
  | none =>
      let m := (roundAway (q * (10 : ℚ) ^ 17)).natAbs
      toString (m / 10 ^ 17) ++ "." ++ decPad (m % 10 ^ 17) 17

/-- JS `${n}` for a number `n` (exact-decimal idealization). -/
def numToString (q : ℚ) : String :=
  if q < 0 then "-" ++ numToStringNN (-q) else numToStringNN q

/-- JS `n.toFixed(k)`: always exactly `k` decimals. -/
def fixedStr (k : ℕ) (q : ℚ) : String :=
  let m := roundAway (q * (10 : ℚ) ^ k)
  let sgn := if m < 0 then "-" else ""
  let a := m.natAbs
  sgn ++ toString (a / 10 ^ k) ++
    (if k = 0 then "" else "." ++ decPad (a % 10 ^ k) k)

/-- `fmt` of the source as a number: `Number(n.toFixed(2))`. -/
def fmtQ (q : ℚ) : ℚ := (roundAway (q * 100) : ℚ) / 100

/-- `fmt` of the source rendered into a template string. -/
def fmt (q : ℚ) : String := numToString (fmtQ q)

/-! ## Oracle for JS float transcendental functions -/

/-- Stand-in for the JS runtime's `Math.sin`, `Math.cos`, `Math.sqrt`.
All theorems hold for every oracle. -/
structure JsMath where
  sin : ℚ → ℚ
  cos : ℚ → ℚ
  sqrt : ℚ → ℚ

/-! ## Data model (from `src/index.js`) -/

/-- `qrArea` rectangle of a shape variation. -/
structure QrArea where
  x : ℚ
  y : ℚ
  size : ℚ
deriving DecidableEq

/-- One entry of a category's `variations` map.  Fields not consulted by the
renderer (`label`, `description`, `icon`) are omitted. -/
structure ShapeVariation where
  viewBox : String
  width : ℚ
  height : ℚ
  path : String
  qrArea : QrArea
  bare : Bool := false
deriving DecidableEq

/-- One entry of `SHAPE_LIBRARY` (ordered variation map as an assoc list,
mirroring JS object key order). -/
structure ShapeCategory where
  variations : List (String × ShapeVariation)
deriving DecidableEq

/-- First-match association-list lookup (JS property access on these maps). -/
def alookup {α : Type} : List (String × α) → String → Option α
  | [], _ => none
  | (k, v) :: rest, key => if k = key then some v else alookup rest key

/-- One entry of `COLOR_PRESETS` (label/description/icon/category omitted). -/
structure ColorPreset where
  background : String
  foreground : String
  outline : String
  finderOuter : String
  finderInner : String
  outlineWidth : ℚ
deriving DecidableEq

/-- The resolved `colors` object used by `buildSVG`.  `finderOuter` and
`finderInner` default to `null` in `DEFAULT_OPTIONS`, hence `Option`. -/
structure Colors where
  background : String
  foreground : String
  outline : String
  finderOuter : Option String
  finderInner : Option String
  outlineWidth : ℚ
deriving DecidableEq

/-- A gradient spec.  `angle` may be absent (destructuring default `135`),
`stops` may be absent (even spacing). -/
structure GradientSpec where
  type : String
  colors : List String
  angle : Option ℚ
  stops : Option (List ℚ)
deriving DecidableEq

/-- The options object `buildSVG` receives (after `mergeOptions` filled the
defaults; `mergeOptions` itself is untyped JS deep-merge and is modelled by
taking the merged record as input).  Fields the source re-guards with `??`
or `||` are `Option`s so a JS `null`/absent value is representable. -/
structure Options where
  shapeCategory : Option String
  shapeVariation : Option String
  shape : Option String
  moduleStyle : String
  moduleScale : ℚ
  finderScale : Option ℚ
  finderPattern : String
  finderOuterStyle : Option String
  finderInnerStyle : Option String
  errorCorrection : String
  colors : Colors
  gradient : Option GradientSpec
  glowEffect : Bool
  glowColor : Option String
  glowIntensity : ℚ
  innerBorder : Bool
  innerBorderWidth : ℚ
  innerBorderColor : Option String
  innerBorderOffset : ℚ
  centerClear : Bool
  centerSize : ℚ
  decorativeFill : Bool
  decorativeDensity : Option ℚ
  decorativeOpacity : Option ℚ
  decorativeSafeMargin : Option ℚ
  decorativeShieldInset : Option ℚ
  decorativeScale : Option ℚ
  preset : Option String

/-- JS `a ?? b` for an optional number. -/
def jsNullish (o : Option ℚ) (d : ℚ) : ℚ := o.getD d

/-- JS `a || b` for an optional number (`0` is falsy). -/
def jsOrNum (o : Option ℚ) (d : ℚ) : ℚ :=
  match o with
  | none => d
  | some x => if x = 0 then d else x

/-- JS `a || b` for an optional string (`''` is falsy). -/
def jsOrStr (o : Option String) (d : String) : String :=
  match o with
  | none => d
  | some s => if s = "" then d else s

/-- The QR matrix handed over by the external `qrcode` encoder:
`modules.size` and `modules.get(row, col)`. -/
structure Grid where
  size : ℕ
  get : ℕ → ℕ → Bool

/-! ## The built-in shape library (`SHAPE_LIBRARY`) -/

def noneDefault : ShapeVariation :=
  { viewBox := "0 0 300 300", width := 300, height := 300
    path := "M 0 0 H 300 V 300 H 0 Z"
    qrArea := { x := 8, y := 8, size := 284 }, bare := true }

def squareSharp : ShapeVariation :=
  { viewBox := "0 0 300 300", width := 300, height := 300
    path := "M 8 8 H 292 V 292 H 8 Z"
    qrArea := { x := 18, y := 18, size := 264 } }

def squareRounded : ShapeVariation :=
  { viewBox := "0 0 300 300", width := 300, height := 300
    path := "M 30 8 H 270 Q 292 8 292 30 V 270 Q 292 292 270 292 H 30 Q 8 292 8 270 V 30 Q 8 8 30 8 Z"
    qrArea := { x := 18, y := 18, size := 264 } }

def squarePill : ShapeVariation :=
  { viewBox := "0 0 300 300", width := 300, height := 300
    path := "M 60 8 H 240 Q 292 8 292 60 V 240 Q 292 292 240 292 H 60 Q 8 292 8 240 V 60 Q 8 8 60 8 Z"
    qrArea := { x := 24, y := 24, size := 252 } }

def rectPortrait : ShapeVariation :=
  { viewBox := "0 0 260 360", width := 260, height := 360
    path := "M 26 8 H 234 Q 252 8 252 26 V 334 Q 252 352 234 352 H 26 Q 8 352 8 334 V 26 Q 8 8 26 8 Z"
    qrArea := { x := 14, y := 64, size := 232 } }

def rectLandscape : ShapeVariation :=
  { viewBox := "0 0 360 260", width := 360, height := 260
    path := "M 26 8 H 334 Q 352 8 352 26 V 234 Q 352 252 334 252 H 26 Q 8 252 8 234 V 26 Q 8 8 26 8 Z"
    qrArea := { x := 64, y := 14, size := 232 } }

def rectTicket : ShapeVariation :=
  { viewBox := "0 0 260 360", width := 260, height := 360
    path := "M 26 8 H 234 Q 252 8 252 26 V 148 Q 242 158 242 170 Q 242 182 252 192 V 334 Q 252 352 234 352 H 26 Q 8 352 8 334 V 192 Q 18 182 18 170 Q 18 158 8 148 V 26 Q 8 8 26 8 Z"
    qrArea := { x := 22, y := 64, size := 216 } }

def circlePerfect : ShapeVariation :=
  { viewBox := "0 0 300 300", width := 300, height := 300
    path := "M 150 8 A 142 142 0 0 1 292 150 A 142 142 0 0 1 150 292 A 142 142 0 0 1 8 150 A 142 142 0 0 1 150 8 Z"
    qrArea := { x := 52, y := 52, size := 196 } }

def circleSquircle : ShapeVariation :=
  { viewBox := "0 0 300 300", width := 300, height := 300
    path := "M 150 8 C 260 8 292 40 292 150 C 292 260 260 292 150 292 C 40 292 8 260 8 150 C 8 40 40 8 150 8 Z"
    qrArea := { x := 40, y := 40, size := 220 } }

def ovalVertical : ShapeVariation :=
  { viewBox := "0 0 280 360", width := 280, height := 360
    path := "M 140 8 A 132 172 0 0 1 272 180 A 132 172 0 0 1 140 352 A 132 172 0 0 1 8 180 A 132 172 0 0 1 140 8 Z"
    qrArea := { x := 38, y := 78, size := 204 } }

def ovalHorizontal : ShapeVariation :=
  { viewBox := "0 0 360 280", width := 360, height := 280
    path := "M 180 8 A 172 132 0 0 1 352 140 A 172 132 0 0 1 180 272 A 172 132 0 0 1 8 140 A 172 132 0 0 1 180 8 Z"
    qrArea := { x := 78, y := 38, size := 204 } }

def diamondClassic : ShapeVariation :=
  { viewBox := "0 0 300 340", width := 300, height := 340
    path := "M 150 8 L 292 170 L 150 332 L 8 170 Z"
    qrArea := { x := 76, y := 96, size := 148 } }

def diamondSoft : ShapeVariation :=
  { viewBox := "0 0 300 340", width := 300, height := 340
    path := "M 150 18 Q 224 90 282 170 Q 224 250 150 322 Q 76 250 18 170 Q 76 90 150 18 Z"
    qrArea := { x := 78, y := 98, size := 144 } }

def heartClassic : ShapeVariation :=
  { viewBox := "0 0 300 280", width := 300, height := 280
    path := "M 150 268 C 75 218 8 165 8 112 C 8 55 50 18 100 18 C 130 18 150 48 150 48 C 150 48 170 18 200 18 C 250 18 292 55 292 112 C 292 165 225 218 150 268 Z"
    qrArea := { x := 62, y := 42, size := 176 } }

def heartRounded : ShapeVariation :=
  { viewBox := "0 0 300 280", width := 300, height := 280
    path := "M 150 258 C 68 204 14 158 14 108 C 14 52 55 18 105 18 C 135 18 150 45 150 45 C 150 45 165 18 195 18 C 245 18 286 52 286 108 C 286 158 232 204 150 258 Z"
    qrArea := { x := 58, y := 38, size := 184 } }

def hexagonSharp : ShapeVariation :=
  { viewBox := "0 0 300 340", width := 300, height := 340
    path := "M 150 8 L 290 88 L 290 252 L 150 332 L 10 252 L 10 88 Z"
    qrArea := { x := 56, y := 72, size := 188 } }

def hexagonRounded : ShapeVariation :=
  { viewBox := "0 0 300 340", width := 300, height := 340
    path := "M 150 14 Q 220 14 284 90 L 284 250 Q 220 326 150 326 Q 80 326 16 250 L 16 90 Q 80 14 150 14 Z"
    qrArea := { x := 58, y := 74, size := 184 } }

def shieldClassic : ShapeVariation :=
  { viewBox := "0 0 300 340", width := 300, height := 340
    path := "M 150 8 C 100 8, 18 18, 8 24 L 8 170 C 8 240, 65 295, 150 332 C 235 295, 292 240, 292 170 L 292 24 C 282 18, 200 8, 150 8 Z"
    qrArea := { x := 46, y := 36, size := 208 } }

def shieldBadge : ShapeVariation :=
  { viewBox := "0 0 300 330", width := 300, height := 330
    path := "M 150 10 C 90 10, 28 18, 18 24 Q 10 30, 10 40 L 10 185 C 10 245, 60 290, 150 322 C 240 290, 290 245, 290 185 L 290 40 Q 290 30, 282 24 C 272 18, 210 10, 150 10 Z"
    qrArea := { x := 44, y := 42, size := 212 } }

def shieldModern : ShapeVariation :=
  { viewBox := "0 0 300 310", width := 300, height := 310
    path := "M 150 10 C 100 10, 25 18, 15 24 L 15 205 Q 15 248, 42 268 Q 80 292, 150 300 Q 220 292, 258 268 Q 285 248, 285 205 L 285 24 C 275 18, 200 10, 150 10 Z"
    qrArea := { x := 36, y := 30, size := 228 } }

def shieldEmblem : ShapeVariation :=
  { viewBox := "0 0 300 350", width := 300, height := 350
    path := "M 150 5 L 292 22 L 292 195 C 292 258, 234 310, 150 342 C 66 310, 8 258, 8 195 L 8 22 Z"
    qrArea := { x := 42, y := 34, size := 216 } }

/-- `SHAPE_LIBRARY.shield.variations` (also exported as `SHIELD_PATHS`). -/
def SHIELD_PATHS : List (String × ShapeVariation) :=
  [("classic", shieldClassic), ("badge", shieldBadge),
   ("modern", shieldModern), ("emblem", shieldEmblem)]

/-- The built-in `SHAPE_LIBRARY`, category and variation keys in JS object
order. -/
def SHAPE_LIBRARY : List (String × ShapeCategory) :=
  [("none", ⟨[("default", noneDefault)]⟩),
   ("square", ⟨[("sharp", squareSharp), ("rounded", squareRounded), ("pill", squarePill)]⟩),
   ("rectangle", ⟨[("portrait", rectPortrait), ("landscape", rectLandscape), ("ticket", rectTicket)]⟩),
   ("circle", ⟨[("perfect", circlePerfect), ("squircle", circleSquircle)]⟩),
   ("oval", ⟨[("vertical", ovalVertical), ("horizontal", ovalHorizontal)]⟩),
   ("diamond", ⟨[("classic", diamondClassic), ("soft", diamondSoft)]⟩),
   ("heart", ⟨[("classic", heartClassic), ("rounded", heartRounded)]⟩),
   ("hexagon", ⟨[("sharp", hexagonSharp), ("rounded", hexagonRounded)]⟩),
   ("shield", ⟨SHIELD_PATHS⟩)]

/-! ## Color presets -/

def COLOR_PRESETS : List (String × ColorPreset) :=
  [("cyber", { background := "#0a0e27", foreground := "#00d4ff", outline := "#00d4ff",
               finderOuter := "#00ff88", finderInner := "#00d4ff", outlineWidth := 3 }),
   ("stealth", { background := "#1a1a1a", foreground := "#c8c8c8", outline := "#555555",
                 finderOuter := "#ffffff", finderInner := "#999999", outlineWidth := 2 }),
   ("royal", { background := "#1a0a3e", foreground := "#c9a0ff", outline := "#ffd700",
               finderOuter := "#ffd700", finderInner := "#c9a0ff", outlineWidth := 3 }),
   ("military", { background := "#1a2e1a", foreground := "#4caf50", outline := "#66bb6a",
                  finderOuter := "#a5d6a7", finderInner := "#4caf50", outlineWidth := 2.5 }),
   ("fire", { background := "#1a0000", foreground := "#ff4444", outline := "#ff6600",
              finderOuter := "#ffaa00", finderInner := "#ff4444", outlineWidth := 3 }),
   ("ocean", { background := "#001a33", foreground := "#0088cc", outline := "#00aaff",
               finderOuter := "#00ddff", finderInner := "#0088cc", outlineWidth := 2.5 }),
   ("monochrome", { background := "#ffffff", foreground := "#000000", outline := "#222222",
                    finderOuter := "#000000", finderInner := "#000000", outlineWidth := 2.5 })]

/-- `DEFAULT_OPTIONS` of the source. -/
def DEFAULT_OPTIONS : Options :=
  { shapeCategory := some "shield"
    shapeVariation := some "classic"
    shape := none
    moduleStyle := "circle"
    moduleScale := 0.82
    finderScale := some 1
    finderPattern := "pattern"
    finderOuterStyle := some "rounded"
    finderInnerStyle := some "rounded"
    errorCorrection := "H"
    colors := { background := "#0a0e27", foreground := "#00d4ff", outline := "#00d4ff",
                finderOuter := none, finderInner := none, outlineWidth := 3 }
    gradient := none
    glowEffect := false
    glowColor := none
    glowIntensity := 8
    innerBorder := false
    innerBorderWidth := 1
    innerBorderColor := none
    innerBorderOffset := 8
    centerClear := false
    centerSize := 0.22
    decorativeFill := true
    decorativeDensity := some 0.35
    decorativeOpacity := some 0.25
    decorativeSafeMargin := some 6
    decorativeShieldInset := some 8
    decorativeScale := some 0.65
    preset := none }

/-! ## Shape resolution (`resolveShape`) -/

/-- The result of `resolveShape`.  `variation` and `shape` can be JS
`undefined` (a recognized category whose variation map is empty), hence
`Option`. -/
structure Resolved where
  category : String
  variation : Option String
  shape : Option ShapeVariation
deriving DecidableEq

/-- JS truthiness of an optional string: the empty string is falsy. -/
def jsStr : Option String → Option String
  | some "" => none
  | x => x

/-- The second and third branch of `resolveShape`: the legacy single-key
`design.shape` selector (a shield variation name, else a category name),
falling back to shield/classic. -/
def resolveShapeLegacy (lib : List (String × ShapeCategory)) (design : Options) : Resolved :=
  match jsStr design.shape with
  | some s =>
    match alookup SHIELD_PATHS s with
    | some sh => { category := "shield", variation := some s, shape := some sh }
    | none =>
      match alookup lib s with
      | some cat =>
          { category := s, variation := cat.variations.head?.map Prod.fst
            shape := cat.variations.head?.map Prod.snd }
      | none => { category := "shield", variation := some "classic", shape := some shieldClassic }
  | none => { category := "shield", variation := some "classic", shape := some shieldClassic }

/-- `resolveShape(design)` over a given registry state `lib`
(the process-wide `SHAPE_LIBRARY`).  Mirrors the source's branches:
a recognized `shapeCategory` first, then the legacy `shape` key, then the
shield/classic default. -/
def resolveShape (lib : List (String × ShapeCategory)) (design : Options) : Resolved :=
  match jsStr design.shapeCategory with
  | some catKey =>
    match alookup lib catKey with
    | some cat =>
        let varKey : Option String := jsStr design.shapeVariation <|> (cat.variations.head?.map Prod.fst)
        let shape : Option ShapeVariation :=
          (varKey.bind (alookup cat.variations)) <|> (cat.variations.head?.map Prod.snd)
        { category := catKey, variation := varKey, shape := shape }
    | none => resolveShapeLegacy lib design
  | none => resolveShapeLegacy lib design

/-! ## Finder pattern detection -/

/-- The classification `classifyFinderModule` assigns. -/
inductive FinderType where
  | outer
  | inner
  | space
deriving DecidableEq

/-- `getFinderPatternPositions(moduleCount)`: top-left corners of the three
7×7 finder blocks.  Coordinates are integers (`ℤ`, as in JS they go
negative for `moduleCount < 7`). -/
def getFinderPatternPositions (moduleCount : ℕ) : List (ℤ × ℤ) :=
  [(0, 0), (0, (moduleCount : ℤ) - 7), ((moduleCount : ℤ) - 7, 0)]

/-- `classifyFinderModule(row, col, positions)`: first block containing the
cell decides; border cells are `outer`, the central 3×3 `inner`, the rest
`space`; `none` outside every block. -/
def classifyFinderModule (row col : ℤ) : List (ℤ × ℤ) → Option FinderType
  | [] => none
  | (pr, pc) :: rest =>
    if pr ≤ row ∧ row < pr + 7 ∧ pc ≤ col ∧ col < pc + 7 then
      let lr := row - pr
      let lc := col - pc
      if lr = 0 ∨ lr = 6 ∨ lc = 0 ∨ lc = 6 then some .outer
      else if 2 ≤ lr ∧ lr ≤ 4 ∧ 2 ≤ lc ∧ lc ≤ 4 then some .inner
      else some .space
    else classifyFinderModule row col rest

/-! ## Module renderers -/

/-- `renderSolidFinderShape(x, y, size, style, fill, cornerRadius)`
(call sites always pass `cornerRadius`). -/
def renderSolidFinderShape (x y size : ℚ) (style fill : String) (cornerRadius : ℚ) : String :=
  let cx := x + size / 2
  let cy := y + size / 2
  let r := size / 2
  if style = "circle" ∨ style = "dot" then
    s!"<circle cx=\"{fmt cx}\" cy=\"{fmt cy}\" r=\"{fmt r}\" fill=\"{fill}\"/>"
  else if style = "rounded" ∨ style = "roundedSquare" then
    let rr := fixedStr 2 (max cornerRadius 0)
    s!"<rect x=\"{fmt x}\" y=\"{fmt y}\" width=\"{fmt size}\" height=\"{fmt size}\" rx=\"{rr}\" ry=\"{rr}\" fill=\"{fill}\"/>"
  else if style = "diamond" then
    let pts := s!"{fmt cx},{fmt (cy - r)} {fmt (cx + r)},{fmt cy} {fmt cx},{fmt (cy + r)} {fmt (cx - r)},{fmt cy}"
    s!"<polygon points=\"{pts}\" fill=\"{fill}\"/>"
  else
    s!"<rect x=\"{fmt x}\" y=\"{fmt y}\" width=\"{fmt size}\" height=\"{fmt size}\" fill=\"{fill}\"/>"

/-- `renderModule(x, y, size, style, scale, fill)`. -/
def renderModule (x y size : ℚ) (style : String) (scale : ℚ) (fill : String) : String :=
  let s := size * scale
  let offset := (size - s) / 2
  let cx := x + size / 2
  let cy := y + size / 2
  let r := s / 2
  if style = "circle" ∨ style = "dot" then
    s!"<circle cx=\"{fmt cx}\" cy=\"{fmt cy}\" r=\"{fmt r}\" fill=\"{fill}\"/>"
  else if style = "rounded" ∨ style = "roundedSquare" then
    let rr := fixedStr 2 (s * 0.35)
    s!"<rect x=\"{fmt (x + offset)}\" y=\"{fmt (y + offset)}\" width=\"{fmt s}\" height=\"{fmt s}\" rx=\"{rr}\" ry=\"{rr}\" fill=\"{fill}\"/>"
  else if style = "diamond" then
    let pts := s!"{fmt cx},{fmt (cy - r)} {fmt (cx + r)},{fmt cy} {fmt cx},{fmt (cy + r)} {fmt (cx - r)},{fmt cy}"
    s!"<polygon points=\"{pts}\" fill=\"{fill}\"/>"
  else
    s!"<rect x=\"{fmt (x + offset)}\" y=\"{fmt (y + offset)}\" width=\"{fmt s}\" height=\"{fmt s}\" fill=\"{fill}\"/>"

/-! ## Gradient builder (`buildGradientDef`) -/

/-- The `offset` percentage of stop `i` of `colorsLen` colors:
`stops ? stops[i] : Math.round((i / (colors.length - 1)) * 100)`.
An out-of-range `stops[i]` is JS `undefined` and prints as `undefined`;
for a single color without stops, `0/0` is `NaN`. -/
def stopPct (colorsLen : ℕ) (stops : Option (List ℚ)) (i : ℕ) : String :=
  match stops with
  | some l =>
    match l.get? i with
    | some v => numToString v
    | none => "undefined"
  | none =>
    if colorsLen = 1 then "NaN"
    else numToString ((jsRound ((i : ℚ) / ((colorsLen : ℚ) - 1) * 100) : ℤ) : ℚ)

/-- One `<stop>` element line. -/
def stopLine (indent : String) (colorsLen : ℕ) (stops : Option (List ℚ)) (i : ℕ) (color : String) : String :=
  let pct := stopPct colorsLen stops i
  s!"{indent}  <stop offset=\"{pct}%\" stop-color=\"{color}\"/>"

/-- `buildGradientDef(gradient, indent)`. -/
def buildGradientDef (om : JsMath) (g : GradientSpec) (indent : String) : String :=
  let angle := g.angle.getD 135
  let stopElements :=
    String.intercalate "\n" (g.colors.mapIdx fun i c => stopLine indent g.colors.length g.stops i c)
  if g.type = "radial" then
    String.intercalate "\n"
      [s!"{indent}<radialGradient id=\"qrGradient\" cx=\"50%\" cy=\"50%\" r=\"60%\">",
       stopElements,
       s!"{indent}</radialGradient>"]
  else
    let rad := (angle - 90) * MATH_PI / 180
    let x1 := numToString ((jsRound (50 + om.sin (rad + MATH_PI) * 50) : ℤ) : ℚ)
    let y1 := numToString ((jsRound (50 + om.cos (rad + MATH_PI) * 50) : ℤ) : ℚ)
    let x2 := numToString ((jsRound (50 + om.sin rad * 50) : ℤ) : ℚ)
    let y2 := numToString ((jsRound (50 + om.cos rad * 50) : ℤ) : ℚ)
    String.intercalate "\n"
      [s!"{indent}<linearGradient id=\"qrGradient\" x1=\"{x1}%\" y1=\"{y1}%\" x2=\"{x2}%\" y2=\"{y2}%\">",
       stopElements,
       s!"{indent}</linearGradient>"]

/-! ## Decorative-fill sampler -/

/-- The deterministic two-input decorative hash, reduced to `[0,1)`:
`(Math.imul(gx * 2654435761 | 0, gy * 2246822519 | 0) >>> 0) / 4294967296`. -/
def decoHash (gx gy : ℚ) : ℚ :=
  ((jsToUint32 (jsImul (jsToInt32 (gx * 2654435761)) (jsToInt32 (gy * 2246822519)))) : ℚ) / 4294967296

/-- The sampler's per-cell selection decision (`decoGrid[dr][dc]`): `false`
when the cell center falls in the safe-margin exclusion box, otherwise
`hash <= density`. -/
def decoSelected (decoSize density exclLeft exclTop exclRight exclBottom : ℚ) (dr dc : ℕ) : Bool :=
  let gx := (dc : ℚ) * decoSize
  let gy := (dr : ℚ) * decoSize
  let cx := gx + decoSize / 2
  let cy := gy + decoSize / 2
  if exclLeft ≤ cx ∧ cx ≤ exclRight ∧ exclTop ≤ cy ∧ cy ≤ exclBottom then false
  else decide (decoHash gx gy ≤ density)

/-! ## Run scanner (bar styles)

The source scans positions `0..n` (inclusive) along a line, opening a run
at the first eligible cell and emitting `(runStart, runLength)` at the
first ineligible position (position `n` counts as ineligible, flushing an
open run). -/

/-- The scan: `st` is the open run's start (if any), `i` the absolute
position of the list's head. -/
def runsAux : Option ℕ → ℕ → List Bool → List (ℕ × ℕ)
  | none, _, [] => []
  | some s, i, [] => [(s, i - s)]
  | none, i, true :: rest => runsAux (some i) (i + 1) rest
  | none, i, false :: rest => runsAux none (i + 1) rest
  | some s, i, true :: rest => runsAux (some s) (i + 1) rest
  | some s, i, false :: rest => (s, i - s) :: runsAux none (i + 1) rest

/-- The maximal runs of `true`s among positions `0..n-1` of `elig`, in
scan order, as `(start, length)` pairs. -/
def rowRuns (elig : ℕ → Bool) (n : ℕ) : List (ℕ × ℕ) :=
  runsAux none 0 ((List.range n).map elig)

/-! ## Pond style geometry -/

/-- Per-cell pond geometry: edge coordinates after neighbor-aware insetting
and the four corner-rounding flags. -/
structure PondCell where
  t : ℚ
  ri : ℚ
  b : ℚ
  l : ℚ
  tlR : Bool
  trR : Bool
  brR : Bool
  blR : Bool
deriving DecidableEq

/-- The pond branch's bounds-checked grid accessor `gd` (the decorative
pond grid is `dRows × dCols`, so the bounds are two parameters). -/
def pondGd (grid : ℕ → ℕ → Bool) (rows cols : ℕ) (r c : ℤ) : Bool :=
  decide (0 ≤ r) && decide (r < (rows : ℤ)) && decide (0 ≤ c) && decide (c < (cols : ℤ)) &&
    grid r.toNat c.toNat

/-- The pond branch's geometry for cell `(r, c)`: an edge shared with an
eligible neighbor stays flush, an exposed edge is inset; a corner is
rounded iff both adjoining edges are exposed. -/
def pondCell (grid : ℕ → ℕ → Bool) (rows cols : ℕ) (originX originY cellSize inset : ℚ) (r c : ℕ) : PondCell :=
  let x0 := originX + (c : ℚ) * cellSize
  let y0 := originY + (r : ℚ) * cellSize
  let tD := pondGd grid rows cols ((r : ℤ) - 1) (c : ℤ)
  let rD := pondGd grid rows cols (r : ℤ) ((c : ℤ) + 1)
  let bD := pondGd grid rows cols ((r : ℤ) + 1) (c : ℤ)
  let lD := pondGd grid rows cols (r : ℤ) ((c : ℤ) - 1)
  { t := if tD then y0 else y0 + inset
    ri := if rD then x0 + cellSize else x0 + cellSize - inset
    b := if bD then y0 + cellSize else y0 + cellSize - inset
    l := if lD then x0 else x0 + inset
    tlR := !tD && !lD
    trR := !tD && !rD
    brR := !bD && !rD
    blR := !bD && !lD }

/-- The `d` subpath for one pond cell. -/
def pondCellPath (p : PondCell) (rr : ℚ) : String :=
  let d0 := s!"M {fmt (p.l + (if p.tlR then rr else 0))} {fmt p.t}"
  let d1 := d0 ++ s!" H {fmt (p.ri - (if p.trR then rr else 0))}"
  let d2 := d1 ++ (if p.trR then s!" Q {fmt p.ri} {fmt p.t} {fmt p.ri} {fmt (p.t + rr)}" else "")
  let d3 := d2 ++ s!" V {fmt (p.b - (if p.brR then rr else 0))}"
  let d4 := d3 ++ (if p.brR then s!" Q {fmt p.ri} {fmt p.b} {fmt (p.ri - rr)} {fmt p.b}" else "")
  let d5 := d4 ++ s!" H {fmt (p.l + (if p.blR then rr else 0))}"
  let d6 := d5 ++ (if p.blR then s!" Q {fmt p.l} {fmt p.b} {fmt p.l} {fmt (p.b - rr)}" else "")
  let d7 := d6 ++ s!" V {fmt (p.t + (if p.tlR then rr else 0))}"
  let d8 := d7 ++ (if p.tlR then s!" Q {fmt p.l} {fmt p.t} {fmt (p.l + rr)} {fmt p.t}" else "")
  d8 ++ " Z"

/-- All pond subpaths of a grid, in row-major scan order. -/
def pondParts (grid : ℕ → ℕ → Bool) (rows cols : ℕ) (originX originY cellSize inset rr : ℚ) : List String :=
  (List.range rows).flatMap fun r =>
    (List.range cols).filterMap fun c =>
      if grid r c then
        some (pondCellPath (pondCell grid rows cols originX originY cellSize inset r c) rr)
      else none

/-! ## The SVG builder (`buildSVG`) -/

/-- The derived layout quantities `buildSVG` computes up front. -/
structure Geo where
  dataOriginX : ℚ
  dataOriginY : ℚ
  cellSize : ℚ
  qrCenterX : ℚ
  qrCenterY : ℚ
  clearRadius : ℚ

/-- `isCleared(row, col)`: the center-clear test (distance of the cell
center from the data centroid, via the runtime's `Math.sqrt`). -/
def isCleared (om : JsMath) (centerClear : Bool) (g : Geo) (row col : ℕ) : Bool :=
  if !centerClear then false
  else
    let x := g.dataOriginX + (col : ℚ) * g.cellSize
    let y := g.dataOriginY + (row : ℚ) * g.cellSize
    let dx := x + g.cellSize / 2 - g.qrCenterX
    let dy := y + g.cellSize / 2 - g.qrCenterY
    decide (om.sqrt (dx * dx + dy * dy) < g.clearRadius)

/-- Eligibility of a data cell for the module layer: dark, not part of a
finder block, not center-cleared (`shouldConnect` / the pond `grid`). -/
def dataEligible (om : JsMath) (centerClear : Bool) (g : Geo) (modules : Grid)
    (positions : List (ℤ × ℤ)) (r c : ℕ) : Bool :=
  modules.get r c && (classifyFinderModule (r : ℤ) (c : ℤ) positions).isNone &&
    !(isCleared om centerClear g r c)

/-- The three solid-mode finder stacks: outer shape in the finder-outer
color, space shape in the literal background color, inner shape in the
finder-inner color. -/
def solidFinderLines (g : Geo) (positions : List (ℤ × ℤ)) (fScale : ℚ)
    (fOuterStyle fInnerStyle finderOuter finderInner background : String) : List String :=
  positions.flatMap fun pos =>
    let fpX := g.dataOriginX + (pos.2 : ℚ) * g.cellSize
    let fpY := g.dataOriginY + (pos.1 : ℚ) * g.cellSize
    let cxF := fpX + 3.5 * g.cellSize
    let cyF := fpY + 3.5 * g.cellSize
    let outerSz := 7 * g.cellSize * fScale
    let spaceSz := 5 * g.cellSize * fScale
    let innerSz := 3 * g.cellSize * fScale
    let outerRR := outerSz * 0.15
    let gap1 := (outerSz - spaceSz) / 2
    let spaceRR := max (outerRR - gap1) 0
    let gap2 := (spaceSz - innerSz) / 2
    let innerRR := max (spaceRR - gap2) 0
    ["    " ++ renderSolidFinderShape (cxF - outerSz / 2) (cyF - outerSz / 2) outerSz fOuterStyle finderOuter outerRR,
     "    " ++ renderSolidFinderShape (cxF - spaceSz / 2) (cyF - spaceSz / 2) spaceSz fOuterStyle background spaceRR,
     "    " ++ renderSolidFinderShape (cxF - innerSz / 2) (cyF - innerSz / 2) innerSz fInnerStyle finderInner innerRR]

/-- The pattern-mode finder layer: each dark `outer`/`inner` cell renders
through `renderModule` with the finder style/color substitutions
(`space` cells and unclassified cells are skipped). -/
def patternFinderLines (g : Geo) (modules : Grid) (moduleCount : ℕ) (positions : List (ℤ × ℤ))
    (fScale : ℚ) (fOuterStyle fInnerStyle finderOuter finderInner : String) : List String :=
  (List.range moduleCount).flatMap fun row =>
    (List.range moduleCount).filterMap fun col =>
      if modules.get row col then
        match classifyFinderModule (row : ℤ) (col : ℤ) positions with
        | some FinderType.outer =>
            some ("    " ++ renderModule (g.dataOriginX + (col : ℚ) * g.cellSize)
              (g.dataOriginY + (row : ℚ) * g.cellSize) g.cellSize fOuterStyle fScale finderOuter)
        | some FinderType.inner =>
            some ("    " ++ renderModule (g.dataOriginX + (col : ℚ) * g.cellSize)
              (g.dataOriginY + (row : ℚ) * g.cellSize) g.cellSize fInnerStyle fScale finderInner)
        | _ => none
      else none

/-- One merged horizontal-bar rectangle. -/
def barHRectLine (g : Geo) (halfGap s : ℚ) (rr fill : String) (row : ℕ) (run : ℕ × ℕ) : String :=
  let x := fmt (g.dataOriginX + (run.1 : ℚ) * g.cellSize + halfGap)
  let y := fmt (g.dataOriginY + (row : ℚ) * g.cellSize + halfGap)
  let w := fmt ((run.2 : ℚ) * g.cellSize - 2 * halfGap)
  let h := fmt s
  s!"    <rect x=\"{x}\" y=\"{y}\" width=\"{w}\" height=\"{h}\" rx=\"{rr}\" ry=\"{rr}\" fill=\"{fill}\"/>"

/-- One merged vertical-bar rectangle. -/
def barVRectLine (g : Geo) (halfGap s : ℚ) (rr fill : String) (col : ℕ) (run : ℕ × ℕ) : String :=
  let x := fmt (g.dataOriginX + (col : ℚ) * g.cellSize + halfGap)
  let y := fmt (g.dataOriginY + (run.1 : ℚ) * g.cellSize + halfGap)
  let w := fmt s
  let h := fmt ((run.2 : ℚ) * g.cellSize - 2 * halfGap)
  s!"    <rect x=\"{x}\" y=\"{y}\" width=\"{w}\" height=\"{h}\" rx=\"{rr}\" ry=\"{rr}\" fill=\"{fill}\"/>"

/-- The `barH` module layer: per row, maximal eligible runs merged into
rounded rectangles. -/
def barHLines (om : JsMath) (centerClear : Bool) (g : Geo) (modules : Grid) (moduleCount : ℕ)
    (positions : List (ℤ × ℤ)) (halfGap s : ℚ) (rr fill : String) : List String :=
  (List.range moduleCount).flatMap fun row =>
    (rowRuns (fun col => dataEligible om centerClear g modules positions row col) moduleCount).map
      (barHRectLine g halfGap s rr fill row)

/-- The `barV` module layer. -/
def barVLines (om : JsMath) (centerClear : Bool) (g : Geo) (modules : Grid) (moduleCount : ℕ)
    (positions : List (ℤ × ℤ)) (halfGap s : ℚ) (rr fill : String) : List String :=
  (List.range moduleCount).flatMap fun col =>
    (rowRuns (fun row => dataEligible om centerClear g modules positions row col) moduleCount).map
      (barVRectLine g halfGap s rr fill col)

/-- The per-cell module layer (circle / roundedSquare / diamond / square). -/
def defaultModuleLines (om : JsMath) (centerClear : Bool) (g : Geo) (modules : Grid)
    (moduleCount : ℕ) (positions : List (ℤ × ℤ)) (style : String) (scale : ℚ)
    (fill : String) : List String :=
  (List.range moduleCount).flatMap fun row =>
    (List.range moduleCount).filterMap fun col =>
      if modules.get row col && !(isCleared om centerClear g row col) &&
          (classifyFinderModule (row : ℤ) (col : ℤ) positions).isNone then
        some ("    " ++ renderModule (g.dataOriginX + (col : ℚ) * g.cellSize)
          (g.dataOriginY + (row : ℚ) * g.cellSize) g.cellSize style scale fill)
      else none

/-- The decorative layer's contents (between the inset-clipped `<g>` tags):
the selected decorative grid rendered in the active module style. -/
def decoLayerLines (decoGrid : ℕ → ℕ → Bool) (dRows dCols : ℕ) (decoSize : ℚ)
    (moduleStyle : String) (decoScale : ℚ) (decoFill : String) : List String :=
  if moduleStyle = "pond" then
    let pInset := decoSize * (1 - decoScale) / 2
    let pRR := max (pInset * 0.85) 0.3
    let parts := pondParts decoGrid dRows dCols 0 0 decoSize pInset pRR
    if parts.length ≠ 0 then
      let joined := String.intercalate " " parts
      [s!"    <path d=\"{joined}\" fill=\"{decoFill}\"/>"]
    else []
  else if moduleStyle = "barH" then
    let s := decoSize * decoScale
    let halfGap := (decoSize - s) / 2
    let bRR := fmt (s * 0.45)
    let sS := fmt s
    (List.range dRows).flatMap fun dr =>
      (rowRuns (fun dc => decoGrid dr dc) dCols).map fun run =>
        let x := fmt ((run.1 : ℚ) * decoSize + halfGap)
        let y := fmt ((dr : ℚ) * decoSize + halfGap)
        let w := fmt ((run.2 : ℚ) * decoSize - 2 * halfGap)
        s!"    <rect x=\"{x}\" y=\"{y}\" width=\"{w}\" height=\"{sS}\" rx=\"{bRR}\" ry=\"{bRR}\" fill=\"{decoFill}\"/>"
  else if moduleStyle = "barV" then
    let s := decoSize * decoScale
    let halfGap := (decoSize - s) / 2
    let bRR := fmt (s * 0.45)
    let sS := fmt s
    (List.range dCols).flatMap fun dc =>
      (rowRuns (fun dr => decoGrid dr dc) dRows).map fun run =>
        let x := fmt ((dc : ℚ) * decoSize + halfGap)
        let y := fmt ((run.1 : ℚ) * decoSize + halfGap)
        let h := fmt ((run.2 : ℚ) * decoSize - 2 * halfGap)
        s!"    <rect x=\"{x}\" y=\"{y}\" width=\"{sS}\" height=\"{h}\" rx=\"{bRR}\" ry=\"{bRR}\" fill=\"{decoFill}\"/>"
  else
    (List.range dRows).flatMap fun dr =>
      (List.range dCols).filterMap fun dc =>
        if decoGrid dr dc then
          some ("    " ++ renderModule ((dc : ℚ) * decoSize) ((dr : ℚ) * decoSize) decoSize
            moduleStyle decoScale decoFill)
        else none

/-- The lines `buildSVG` pushes, in order (the document is their
`"\n"`-join).  A transcription of the source's `buildSVG`. -/
def buildSVGLines (om : JsMath) (modules : Grid) (moduleCount : ℕ) (moduleSize : ℚ)
    (shapeDefinition : ShapeVariation) (opts : Options) : List String :=
  let width := shapeDefinition.width
  let height := shapeDefinition.height
  let viewBox := shapeDefinition.viewBox
  let path := shapeDefinition.path
  let qrArea := shapeDefinition.qrArea
  let bare := shapeDefinition.bare
  let colors := opts.colors
  let finderOuter := jsOrStr colors.finderOuter colors.foreground
  let finderInner := jsOrStr colors.finderInner colors.foreground
  let quietPx := 1.5 * moduleSize
  let dataOriginX := qrArea.x + quietPx
  let dataOriginY := qrArea.y + quietPx
  let dataSize := qrArea.size - quietPx * 2
  let cellSize := dataSize / (moduleCount : ℚ)
  let widthS := numToString width
  let heightS := numToString height
  let headLine :=
    s!"<svg xmlns=\"http://www.w3.org/2000/svg\" viewBox=\"{viewBox}\" width=\"{widthS}\" height=\"{heightS}\" role=\"img\" aria-label=\"QR Code\">"
  let clipLine := s!"    <clipPath id=\"shapeClip\"><path d=\"{path}\"/></clipPath>"
  let gradientLines :=
    match opts.gradient with
    | some grad => [buildGradientDef om grad "    "]
    | none => []
  let glowLines :=
    if !bare && opts.glowEffect then
      let gc := jsOrStr opts.glowColor colors.outline
      let gi := numToString opts.glowIntensity
      ["    <filter id=\"glow\" x=\"-50%\" y=\"-50%\" width=\"200%\" height=\"200%\">",
       s!"      <feGaussianBlur stdDeviation=\"{gi}\" result=\"blur\"/>",
       s!"      <feFlood flood-color=\"{gc}\" flood-opacity=\"0.5\" result=\"color\"/>",
       "      <feComposite in=\"color\" in2=\"blur\" operator=\"in\" result=\"shadow\"/>",
       "      <feMerge><feMergeNode in=\"shadow\"/><feMergeNode in=\"SourceGraphic\"/></feMerge>",
       "    </filter>"]
    else []
  let bg := colors.background
  let backgroundLine :=
    if bare then
      s!"  <rect x=\"0\" y=\"0\" width=\"{widthS}\" height=\"{heightS}\" fill=\"{bg}\"/>"
    else
      let filterAttr := if opts.glowEffect then " filter=\"url(#glow)\"" else ""
      s!"  <path d=\"{path}\" fill=\"{bg}\"{filterAttr}/>"
  let qzRx := fmt (cellSize * 1.5)
  let qx := fmt qrArea.x
  let qy := fmt qrArea.y
  let qs := fmt qrArea.size
  let quietLine :=
    s!"  <rect x=\"{qx}\" y=\"{qy}\" width=\"{qs}\" height=\"{qs}\" rx=\"{qzRx}\" ry=\"{qzRx}\" fill=\"{bg}\" clip-path=\"url(#shapeClip)\"/>"
  let groupOpen := if bare then "  <g>" else "  <g clip-path=\"url(#shapeClip)\">"
  let finderPositions := getFinderPatternPositions moduleCount
  let fillColor := if opts.gradient.isSome then "url(#qrGradient)" else colors.foreground
  let clearRadius := if opts.centerClear then dataSize * opts.centerSize else 0
  let geo : Geo :=
    { dataOriginX := dataOriginX, dataOriginY := dataOriginY, cellSize := cellSize
      qrCenterX := dataOriginX + dataSize / 2, qrCenterY := dataOriginY + dataSize / 2
      clearRadius := clearRadius }
  let fScale := jsNullish opts.finderScale 1
  let fOuterStyle := jsOrStr opts.finderOuterStyle "rounded"
  let fInnerStyle := jsOrStr opts.finderInnerStyle "rounded"
  let finderLines :=
    if opts.finderPattern = "solid" then
      solidFinderLines geo finderPositions fScale fOuterStyle fInnerStyle finderOuter finderInner bg
    else
      patternFinderLines geo modules moduleCount finderPositions fScale fOuterStyle fInnerStyle
        finderOuter finderInner
  let moduleLines :=
    if opts.moduleStyle = "pond" then
      let inset := cellSize * (1 - opts.moduleScale) / 2
      let rr := max (inset * 0.85) 0.3
      let grid := fun r c => dataEligible om opts.centerClear geo modules finderPositions r c
      let parts := pondParts grid moduleCount moduleCount dataOriginX dataOriginY cellSize inset rr
      if parts.length ≠ 0 then
        let joined := String.intercalate " " parts
        [s!"    <path d=\"{joined}\" fill=\"{fillColor}\"/>"]
      else []
    else if opts.moduleStyle = "barH" || opts.moduleStyle = "barV" then
      let s := cellSize * opts.moduleScale
      let halfGap := (cellSize - s) / 2
      let rr := fmt (s * 0.45)
      if opts.moduleStyle = "barH" then
        barHLines om opts.centerClear geo modules moduleCount finderPositions halfGap s rr fillColor
      else
        barVLines om opts.centerClear geo modules moduleCount finderPositions halfGap s rr fillColor
    else
      defaultModuleLines om opts.centerClear geo modules moduleCount finderPositions
        opts.moduleStyle opts.moduleScale fillColor
  let decorativeLines :=
    if !bare && opts.decorativeFill then
      let safeMargin := jsNullish opts.decorativeSafeMargin 6
      let shieldInset := jsNullish opts.decorativeShieldInset 8
      let density := jsOrNum opts.decorativeDensity 0.35
      let opacity := jsNullish opts.decorativeOpacity 0.25
      let decoFill := if opts.gradient.isSome then colors.foreground else fillColor
      let decoSize := cellSize
      let decoScale := jsNullish opts.decorativeScale 0.65
      let exclLeft := qrArea.x - safeMargin
      let exclTop := qrArea.y - safeMargin
      let exclRight := qrArea.x + qrArea.size + safeMargin
      let exclBottom := qrArea.y + qrArea.size + safeMargin
      let insetSx := fixedStr 4 ((width - shieldInset * 2) / width)
      let insetSy := fixedStr 4 ((height - shieldInset * 2) / height)
      let insetS := numToString shieldInset
      let clipInsetLine :=
        s!"  <clipPath id=\"shapeClipInset\"><path d=\"{path}\" transform=\"translate({insetS},{insetS}) scale({insetSx},{insetSy})\"/></clipPath>"
      let opacityS := numToString opacity
      let decoOpen := s!"  <g clip-path=\"url(#shapeClipInset)\" opacity=\"{opacityS}\">"
      let dCols := (Int.ceil (width / decoSize)).toNat
      let dRows := (Int.ceil (height / decoSize)).toNat
      let decoGrid := fun dr dc =>
        decoSelected decoSize density exclLeft exclTop exclRight exclBottom dr dc
      clipInsetLine :: decoOpen ::
        decoLayerLines decoGrid dRows dCols decoSize opts.moduleStyle decoScale decoFill ++
        ["  </g>"]
    else []
  let borderLines :=
    if !bare then
      let innerLines :=
        if opts.innerBorder then
          let ibColor := jsOrStr opts.innerBorderColor colors.outline
          let off := opts.innerBorderOffset
          let sx := fixedStr 4 ((width - off * 2) / width)
          let sy := fixedStr 4 ((height - off * 2) / height)
          let offS := numToString off
          let ibw := numToString opts.innerBorderWidth
          [s!"  <path d=\"{path}\" fill=\"none\" stroke=\"{ibColor}\" stroke-width=\"{ibw}\" opacity=\"0.35\" transform=\"translate({offS},{offS}) scale({sx},{sy})\"/>"]
        else []
      let ow := numToString colors.outlineWidth
      let strokeC := colors.outline
      innerLines ++
        [s!"  <path d=\"{path}\" fill=\"none\" stroke=\"{strokeC}\" stroke-width=\"{ow}\" stroke-linejoin=\"round\"/>"]
    else []
  [headLine, "  <defs>", clipLine] ++ gradientLines ++ glowLines ++ ["  </defs>"] ++
    [backgroundLine, quietLine, groupOpen] ++ finderLines ++ moduleLines ++ ["  </g>"] ++
    decorativeLines ++ borderLines ++ ["</svg>"]

/-- `buildSVG`: the joined document string. -/
def buildSVG (om : JsMath) (modules : Grid) (moduleCount : ℕ) (moduleSize : ℚ)
    (shapeDefinition : ShapeVariation) (opts : Options) : String :=
  String.intercalate "\n" (buildSVGLines om modules moduleCount moduleSize shapeDefinition opts)

/-! ## Public API (`generateShapeQR` and derived output forms)

The external `qrcode` encoder (`QRCode.create(data, { errorCorrectionLevel })`)
is an opaque dependency; it is passed in as a deterministic function
yielding the module matrix.  `mergeOptions` (untyped JS deep merge of
`DEFAULT_OPTIONS` with the caller's partial options) is modelled by taking
the merged `Options` record as the input. -/

/-- The opaque external grid encoder. -/
structure Encoder where
  create : String → String → Grid

/-- The preset-application step at the top of `generateShapeQR`:
`opts.colors = { ...opts.colors, ...presetFields }`. -/
def applyPreset (opts : Options) : Options :=
  match jsStr opts.preset with
  | some p =>
    match alookup COLOR_PRESETS p with
    | some pr =>
        { opts with colors :=
            { background := pr.background, foreground := pr.foreground, outline := pr.outline
              finderOuter := some pr.finderOuter, finderInner := some pr.finderInner
              outlineWidth := pr.outlineWidth } }
    | none => opts
  | none => opts

/-- `generateShapeQR(data, options)`.  `none` models the JS run failing
with an exception (which can only happen when `resolveShape` yields an
`undefined` shape, impossible over the built-in library). -/
def generateShapeQR (enc : Encoder) (om : JsMath) (data : String) (options : Options) : Option String :=
  let opts := applyPreset options
  match (resolveShape SHAPE_LIBRARY opts).shape with
  | none => none
  | some shapeDefinition =>
    let qrData := enc.create data opts.errorCorrection
    let moduleCount := qrData.size
    let moduleSize := shapeDefinition.qrArea.size / (moduleCount : ℚ)
    some (buildSVG om qrData moduleCount moduleSize shapeDefinition opts)

/-! ### UTF-8 (Buffer.from(svg, 'utf-8') / TextEncoder) -/

/-- UTF-8 encoding of one Unicode scalar value. -/
def utf8EncodeChar (n : ℕ) : List ℕ :=
  if n < 0x80 then [n]
  else if n < 0x800 then [0xC0 + n / 64, 0x80 + n % 64]
  else if n < 0x10000 then [0xE0 + n / 4096, 0x80 + n / 64 % 64, 0x80 + n % 64]
  else [0xF0 + n / 262144, 0x80 + n / 4096 % 64, 0x80 + n / 64 % 64, 0x80 + n % 64]

/-- UTF-8 byte sequence of a string. -/
def utf8Encode (s : String) : List ℕ :=
  s.data.flatMap fun c => utf8EncodeChar c.toNat

/-- Strict UTF-8 decoding to scalar values (rejecting truncated sequences,
bad continuation bytes, overlong forms, surrogates and values past
`0x10FFFF`). -/
def utf8DecodeScalars : List ℕ → Option (List ℕ)
  | [] => some []
  | b :: rest =>
    if b < 0x80 then (utf8DecodeScalars rest).map (b :: ·)
    else if b < 0xC0 then none
    else if b < 0xE0 then
      if rest.length < 1 then none
      else
        let b2 := rest.getD 0 0
        let v := (b - 0xC0) * 64 + (b2 - 0x80)
        if 0x80 ≤ b2 ∧ b2 < 0xC0 ∧ 0x80 ≤ v then
          (utf8DecodeScalars (rest.drop 1)).map (v :: ·)
        else none
    else if b < 0xF0 then
      if rest.length < 2 then none
      else
        let b2 := rest.getD 0 0
        let b3 := rest.getD 1 0
        let v := (b - 0xE0) * 4096 + (b2 - 0x80) * 64 + (b3 - 0x80)
        if 0x80 ≤ b2 ∧ b2 < 0xC0 ∧ 0x80 ≤ b3 ∧ b3 < 0xC0 ∧ 0x800 ≤ v ∧
            (v < 0xD800 ∨ 0xE000 ≤ v) then
          (utf8DecodeScalars (rest.drop 2)).map (v :: ·)
        else none
    else if b < 0xF8 then
      if rest.length < 3 then none
      else
        let b2 := rest.getD 0 0
        let b3 := rest.getD 1 0
        let b4 := rest.getD 2 0
        let v := (b - 0xF0) * 262144 + (b2 - 0x80) * 4096 + (b3 - 0x80) * 64 + (b4 - 0x80)
        if 0x80 ≤ b2 ∧ b2 < 0xC0 ∧ 0x80 ≤ b3 ∧ b3 < 0xC0 ∧ 0x80 ≤ b4 ∧ b4 < 0xC0 ∧
            0x10000 ≤ v ∧ v < 0x110000 then
          (utf8DecodeScalars (rest.drop 3)).map (v :: ·)
        else none
    else none
termination_by l => l.length
decreasing_by
  all_goals simp [List.length_drop]
  all_goals omega

/-- UTF-8 decoding of a byte sequence back to a string. -/
def utf8Decode (bs : List ℕ) : Option String :=
  (utf8DecodeScalars bs).map fun l => String.mk (l.map Char.ofNat)

/-! ### Base64 (`Buffer#toString('base64')`, standard alphabet, padded) -/

def b64Alphabet : String :=
  "ABCDEFGHIJKLMNOPQRSTUVWXYZabcdefghijklmnopqrstuvwxyz0123456789+/"

def b64Char (n : ℕ) : Char := b64Alphabet.data.getD n 'A'

/-- Standard padded base64 of a byte sequence. -/
def base64Encode : List ℕ → String
  | [] => ""
  | [a] => String.mk [b64Char (a / 4), b64Char (a % 4 * 16), '=', '=']
  | [a, b] => String.mk [b64Char (a / 4), b64Char (a % 4 * 16 + b / 16), b64Char (b % 16 * 4), '=']
  | a :: b :: c :: rest =>
      String.mk [b64Char (a / 4), b64Char (a % 4 * 16 + b / 16),
        b64Char (b % 16 * 4 + c / 64), b64Char (c % 64)] ++ base64Encode rest

/-- `generateShapeQRBuffer(data, options)`: the document's UTF-8 bytes. -/
def generateShapeQRBuffer (enc : Encoder) (om : JsMath) (data : String) (options : Options) :
    Option (List ℕ) :=
  (generateShapeQR enc om data options).map utf8Encode

/-- `generateShapeQRDataURI(data, options)`: fixed MIME prefix plus the
base64 of the document's UTF-8 bytes. -/
def generateShapeQRDataURI (enc : Encoder) (om : JsMath) (data : String) (options : Options) :
    Option String :=
  (generateShapeQR enc om data options).map fun svg =>
    "data:image/svg+xml;base64," ++ base64Encode (utf8Encode svg)

/-! ## Auxiliary definitions for the statements -/

/-- `pat` is a prefix of the character list. -/
def isPrefixL : List Char → List Char → Bool
  | [], _ => true
  | _ :: _, [] => false
  | p :: ps, c :: cs => p == c && isPrefixL ps cs

/-- `pat` occurs somewhere in the character list. -/
def hasInfixL (pat : List Char) : List Char → Bool
  | [] => pat.isEmpty
  | c :: cs => isPrefixL pat (c :: cs) || hasInfixL pat cs

/-- `pat` occurs as a substring of `s`. -/
def strHasInfix (s pat : String) : Bool := hasInfixL pat.data s.data

/-- The classification a finder block assigns at block-local coordinates
`(dr, dc)` (both `< 7`): border → outer, central 3×3 → inner, rest →
space. -/
def blockLocal (dr dc : ℕ) : FinderType :=
  if dr = 0 ∨ dr = 6 ∨ dc = 0 ∨ dc = 6 then .outer
  else if 2 ≤ dr ∧ dr ≤ 4 ∧ 2 ≤ dc ∧ dc ≤ 4 then .inner
  else .space

/-- How many cells of the 7×7 block anchored at `(pr, pc)` the classifier
labels `t`. -/
def blockCount (N : ℕ) (pr pc : ℤ) (t : FinderType) : ℕ :=
  ((Finset.range 7 ×ˢ Finset.range 7).filter fun p =>
    classifyFinderModule (pr + (p.1 : ℤ)) (pc + (p.2 : ℤ)) (getFinderPatternPositions N) = some t).card

/-- The active cells of a `rows × cols` grid in row-major order (used to
count pond subpaths: one per active cell). -/
def activeCells (grid : ℕ → ℕ → Bool) (rows cols : ℕ) : List (ℕ × ℕ) :=
  (List.range rows).flatMap fun r =>
    ((List.range cols).filter fun c => grid r c).map fun c => (r, c)

/-- A fully active matrix of side `N`. -/
def fullGrid (N : ℕ) : Grid := { size := N, get := fun _ _ => true }

/-! ### Concrete sample inputs for witnesses and evaluation theorems -/

/-- A concrete oracle (its values never matter for the claims below). -/
def om0 : JsMath := { sin := fun _ => 0, cos := fun _ => 0, sqrt := fun _ => 0 }

/-- A stub encoder producing a 1×1 all-dark matrix: the smallest input on
which the full pipeline can be evaluated in closed form (the solid-finder
and gradient layers do not consult the matrix contents). -/
def encStub : Encoder := ⟨fun _ _ => { size := 1, get := fun _ _ => true }⟩

/-- The failing configuration for the transparent-finder claim: the
documented transparent background sentinel together with solid finder
mode (decorative fill disabled to keep the document small). -/
def optsTransparentSolid : Options :=
  { DEFAULT_OPTIONS with
    colors := { DEFAULT_OPTIONS.colors with background := "transparent" }
    finderPattern := "solid"
    decorativeFill := false }

/-- The failing configuration for the empty-gradient claim: a gradient
spec whose color list is empty. -/
def optsEmptyGradient : Options :=
  { DEFAULT_OPTIONS with
    gradient := some { type := "radial", colors := [], angle := none, stops := none }
    decorativeFill := false }

/-- The transparent-solid document the pipeline actually returns on the
stub encoder. -/
def transparentSolidDoc : String :=
  (generateShapeQR encStub om0 "x" optsTransparentSolid).getD ""

/-- A design selecting an explicit category and variation (heart/classic),
with a conflicting legacy key, for the resolution witness. -/
def sampleHeartDesign : Options :=
  { DEFAULT_OPTIONS with
    shapeCategory := some "heart"
    shapeVariation := some "classic"
    shape := some "badge" }

/-- Two horizontally adjacent active cells (for the pond seam witness). -/
def pairGrid : ℕ → ℕ → Bool := fun r c => decide (r = 0 ∧ (c = 0 ∨ c = 1))

/-- An arbitrary concrete layout record (bar-merge run counts do not
depend on it). -/
def geo0 : Geo :=
  { dataOriginX := 0, dataOriginY := 0, cellSize := 1
    qrCenterX := 0, qrCenterY := 0, clearRadius := 0 }

/-! # Theorems -/

/-! ## C8: decorative safe-margin exclusion -/

/-- C8: for every density and safety-margin setting, a decorative cell
whose center lies within the data-area bounding box expanded on all sides
by the safety margin is never selected: the sampler's decision is `false`
for every such cell (the exclusion bounds are exactly how `buildSVG`
instantiates them: `qrArea ± safeMargin`). -/
theorem C8_deco_exclusion (qrX qrY qrSize safeMargin decoSize density : ℚ) (dr dc : ℕ)
    (h1 : qrX - safeMargin ≤ (dc : ℚ) * decoSize + decoSize / 2)
    (h2 : (dc : ℚ) * decoSize + decoSize / 2 ≤ qrX + qrSize + safeMargin)
    (h3 : qrY - safeMargin ≤ (dr : ℚ) * decoSize + decoSize / 2)
    (h4 : (dr : ℚ) * decoSize + decoSize / 2 ≤ qrY + qrSize + safeMargin) :
    decoSelected decoSize density (qrX - safeMargin) (qrY - safeMargin)
      (qrX + qrSize + safeMargin) (qrY + qrSize + safeMargin) dr dc = false := by
  simp only [decoSelected]
  rw [if_pos ⟨h1, h2, h3, h4⟩]

set_option maxRecDepth 10000 in
unseal Rat.mul Rat.add Rat.sub Rat.inv Rat.ofScientific in
/-- Witness for C8 at the shield/classic geometry (`qrArea` 46/36/208,
margin 6, cell 10): the cell `(5,5)` has center `(55,55)`, inside the
expanded box, and is indeed not selected. -/
theorem C8_deco_exclusion_witness :
    ((46 : ℚ) - 6 ≤ (5 : ℚ) * 10 + 10 / 2 ∧ (5 : ℚ) * 10 + 10 / 2 ≤ 46 + 208 + 6 ∧
      (36 : ℚ) - 6 ≤ (5 : ℚ) * 10 + 10 / 2 ∧ (5 : ℚ) * 10 + 10 / 2 ≤ 36 + 208 + 6) ∧
    decoSelected 10 0.35 (46 - 6) (36 - 6) (46 + 208 + 6) (36 + 208 + 6) 5 5 = false :=
  ⟨⟨by decide, by decide, by decide, by decide⟩,
    C8_deco_exclusion 46 36 208 6 10 0.35 5 5 (by decide) (by decide) (by decide) (by decide)⟩

/-! ## C10: zero hash on the first decorative row and column -/

/-- C10: the decorative hash is exactly `0` whenever either pixel
coordinate is `0` (`x | 0` maps `0` to `0` and `Math.imul` with a zero
factor yields `0`), so for any non-negative density a first-row or
first-column cell is selected whenever its center escapes the safe-margin
exclusion box. -/
theorem C10_deco_hash_zero_edge :
    (∀ gy : ℚ, decoHash 0 gy = 0) ∧ (∀ gx : ℚ, decoHash gx 0 = 0) ∧
    (∀ (decoSize density eL eT eR eB : ℚ) (dr dc : ℕ),
      (dc = 0 ∨ dr = 0) →
      ¬(eL ≤ (dc : ℚ) * decoSize + decoSize / 2 ∧ (dc : ℚ) * decoSize + decoSize / 2 ≤ eR ∧
        eT ≤ (dr : ℚ) * decoSize + decoSize / 2 ∧ (dr : ℚ) * decoSize + decoSize / 2 ≤ eB) →
      0 ≤ density →
      decoSelected decoSize density eL eT eR eB dr dc = true) := by
  have hint0 : jsToInt32 0 = 0 := by norm_num [jsToInt32, jsTrunc, wrap32]
  have himulL : ∀ b : ℤ, jsImul 0 b = 0 := fun b => by norm_num [jsImul, wrap32]
  have himulR : ∀ a : ℤ, jsImul a 0 = 0 := fun a => by norm_num [jsImul, wrap32]
  have hu0 : jsToUint32 0 = 0 := by norm_num [jsToUint32]
  have h1 : ∀ gy : ℚ, decoHash 0 gy = 0 := by
    intro gy
    rw [decoHash, zero_mul, hint0, himulL, hu0]
    norm_num
  have h2 : ∀ gx : ℚ, decoHash gx 0 = 0 := by
    intro gx
    rw [decoHash, zero_mul, hint0, himulR, hu0]
    norm_num
  refine ⟨h1, h2, ?_⟩
  intro ds density eL eT eR eB dr dc hedge hbox hdens
  simp only [decoSelected]
  rw [if_neg hbox]
  rcases hedge with h | h
  · subst h
    simp only [Nat.cast_zero, zero_mul]
    rw [h1]
    exact decide_eq_true hdens
  · subst h
    simp only [Nat.cast_zero, zero_mul]
    rw [h2]
    exact decide_eq_true hdens

/-! ## C7: finder classification coverage -/

/-- Inside the block at `(0,0)` the classifier agrees with the block-local
classification. -/
theorem classify_block_tl (N : ℕ) (dr dc : ℕ) (h7r : dr < 7) (h7c : dc < 7) :
    classifyFinderModule ((0 : ℤ) + (dr : ℤ)) ((0 : ℤ) + (dc : ℤ)) (getFinderPatternPositions N) =
      some (blockLocal dr dc) := by
  simp only [getFinderPatternPositions, classifyFinderModule, blockLocal]
  split_ifs <;> first | rfl | omega

/-- Inside the block at `(0, N-7)` (for non-overlapping blocks,
`14 ≤ N`) the classifier agrees with the block-local classification. -/
theorem classify_block_tr (N : ℕ) (hN : 14 ≤ N) (dr dc : ℕ) (h7r : dr < 7) (h7c : dc < 7) :
    classifyFinderModule ((0 : ℤ) + (dr : ℤ)) (((N : ℤ) - 7) + (dc : ℤ)) (getFinderPatternPositions N) =
      some (blockLocal dr dc) := by
  simp only [getFinderPatternPositions, classifyFinderModule, blockLocal]
  split_ifs <;> first | rfl | omega

/-- Inside the block at `(N-7, 0)` (for `14 ≤ N`) the classifier agrees
with the block-local classification. -/
theorem classify_block_bl (N : ℕ) (hN : 14 ≤ N) (dr dc : ℕ) (h7r : dr < 7) (h7c : dc < 7) :
    classifyFinderModule (((N : ℤ) - 7) + (dr : ℤ)) ((0 : ℤ) + (dc : ℤ)) (getFinderPatternPositions N) =
      some (blockLocal dr dc) := by
  simp only [getFinderPatternPositions, classifyFinderModule, blockLocal]
  split_ifs <;> first | rfl | omega

/-- The classifier classifies exactly the cells of the three 7×7 blocks. -/
theorem classify_isSome_iff (N : ℕ) (r c : ℤ) :
    (classifyFinderModule r c (getFinderPatternPositions N)).isSome = true ↔
      (0 ≤ r ∧ r < 7 ∧ 0 ≤ c ∧ c < 7) ∨
      (0 ≤ r ∧ r < 7 ∧ (N : ℤ) - 7 ≤ c ∧ c < (N : ℤ)) ∨
      ((N : ℤ) - 7 ≤ r ∧ r < (N : ℤ) ∧ 0 ≤ c ∧ c < 7) := by
  simp only [getFinderPatternPositions, classifyFinderModule]
  split_ifs <;> simp <;> omega

/-- C7: for every grid side at which the three fixed 7×7 blocks do not
overlap (`14 ≤ N`, which covers every standard QR side), the classifier
assigns a classification to exactly the cells of the three blocks at
`(0,0)`, `(0,N-7)`, `(N-7,0)`, and inside each block exactly 24 cells are
`outer`, 9 are `inner` and 16 are `space`. -/
theorem C7_finder_classification (N : ℕ) (hN : 14 ≤ N) :
    (∀ r c : ℤ,
      (classifyFinderModule r c (getFinderPatternPositions N)).isSome = true ↔
        (0 ≤ r ∧ r < 7 ∧ 0 ≤ c ∧ c < 7) ∨
        (0 ≤ r ∧ r < 7 ∧ (N : ℤ) - 7 ≤ c ∧ c < (N : ℤ)) ∨
        ((N : ℤ) - 7 ≤ r ∧ r < (N : ℤ) ∧ 0 ≤ c ∧ c < 7)) ∧
    (∀ pos ∈ getFinderPatternPositions N,
      blockCount N pos.1 pos.2 FinderType.outer = 24 ∧
      blockCount N pos.1 pos.2 FinderType.inner = 9 ∧
      blockCount N pos.1 pos.2 FinderType.space = 16) := by
  refine ⟨fun r c => classify_isSome_iff N r c, ?_⟩
  intro pos hpos
  have key : ∀ t : FinderType,
      blockCount N pos.1 pos.2 t =
        ((Finset.range 7 ×ˢ Finset.range 7).filter fun p => blockLocal p.1 p.2 = t).card := by
    intro t
    unfold blockCount
    congr 1
    apply Finset.filter_congr
    intro p hp
    have h1 : p.1 < 7 := Finset.mem_range.mp (Finset.mem_product.mp hp).1
    have h2 : p.2 < 7 := Finset.mem_range.mp (Finset.mem_product.mp hp).2
    simp only [getFinderPatternPositions, List.mem_cons, List.not_mem_nil, or_false] at hpos
    rcases hpos with h | h | h <;> subst h
    · rw [classify_block_tl N p.1 p.2 h1 h2]
      simp
    · rw [classify_block_tr N hN p.1 p.2 h1 h2]
      simp
    · rw [classify_block_bl N hN p.1 p.2 h1 h2]
      simp
  rw [key, key, key]
  refine ⟨?_, ?_, ?_⟩ <;> decide

/-- Witness for C7 at the smallest standard QR side, `N = 21`, and the
bottom-left block `(14, 0)`. -/
theorem C7_finder_classification_witness :
    14 ≤ 21 ∧
      (blockCount 21 14 0 FinderType.outer = 24 ∧ blockCount 21 14 0 FinderType.inner = 9 ∧
        blockCount 21 14 0 FinderType.space = 16) :=
  ⟨by decide,
    (C7_finder_classification 21 (by decide)).2 ((14 : ℤ), (0 : ℤ)) (by decide)⟩

/-! ## C4: shape resolution precedence and fallbacks -/

/-- Looking up the key of the first entry yields the first value. -/
theorem alookup_cons_self {α : Type} (k : String) (v : α) (rest : List (String × α)) :
    alookup ((k, v) :: rest) k = some v := by
  simp [alookup]

/-- C4: `resolveShape` follows the documented precedence.  (1) A
recognized explicit category with a recognized variation wins, whatever
the legacy `shape` key holds.  (2) A recognized category with an unknown
or missing variation falls back to the category's first variation entry.
(3) When the category is unrecognized or missing: a legacy `shape`
matching a shield variation resolves to it; a legacy `shape` matching a
category resolves to that category's first entry; and when every selector
is unknown the result is the shield/classic default.  No input makes
resolution fail. -/
theorem C4_resolve_precedence (d : Options) :
    (∀ ck v cat sh, jsStr d.shapeCategory = some ck → alookup SHAPE_LIBRARY ck = some cat →
      jsStr d.shapeVariation = some v → alookup cat.variations v = some sh →
      resolveShape SHAPE_LIBRARY d = ⟨ck, some v, some sh⟩) ∧
    (∀ ck cat, jsStr d.shapeCategory = some ck → alookup SHAPE_LIBRARY ck = some cat →
      (∀ v, jsStr d.shapeVariation = some v → alookup cat.variations v = none) →
      (resolveShape SHAPE_LIBRARY d).category = ck ∧
      (resolveShape SHAPE_LIBRARY d).shape = cat.variations.head?.map Prod.snd) ∧
    ((∀ ck, jsStr d.shapeCategory = some ck → alookup SHAPE_LIBRARY ck = none) →
      (∀ s sh, jsStr d.shape = some s → alookup SHIELD_PATHS s = some sh →
        resolveShape SHAPE_LIBRARY d = ⟨"shield", some s, some sh⟩) ∧
      (∀ s cat, jsStr d.shape = some s → alookup SHIELD_PATHS s = none →
        alookup SHAPE_LIBRARY s = some cat →
        resolveShape SHAPE_LIBRARY d =
          ⟨s, cat.variations.head?.map Prod.fst, cat.variations.head?.map Prod.snd⟩) ∧
      ((∀ s, jsStr d.shape = some s →
          alookup SHIELD_PATHS s = none ∧ alookup SHAPE_LIBRARY s = none) →
        resolveShape SHAPE_LIBRARY d = ⟨"shield", some "classic", some shieldClassic⟩)) := by
  have hlegacy : ∀ (hcat : ∀ ck, jsStr d.shapeCategory = some ck → alookup SHAPE_LIBRARY ck = none),
      resolveShape SHAPE_LIBRARY d = resolveShapeLegacy SHAPE_LIBRARY d := by
    intro hcat
    cases hck : jsStr d.shapeCategory with
    | none => simp [resolveShape, hck]
    | some ck => simp [resolveShape, hck, hcat ck hck]
  refine ⟨?_, ?_, ?_⟩
  · intro ck v cat sh h1 h2 h3 h4
    simp [resolveShape, h1, h2, h3, h4]
  · intro ck cat h1 h2 hv
    cases h3 : jsStr d.shapeVariation with
    | some v =>
        simp [resolveShape, h1, h2, h3, hv v h3]
    | none =>
        cases hvars : cat.variations with
        | nil => simp [resolveShape, h1, h2, h3, hvars]
        | cons kv rest =>
            obtain ⟨k, v⟩ := kv
            simp [resolveShape, h1, h2, h3, hvars, alookup_cons_self]
  · intro hcat
    rw [hlegacy hcat]
    refine ⟨?_, ?_, ?_⟩
    · intro s sh h1 h2
      simp [resolveShapeLegacy, h1, h2]
    · intro s cat h1 h2 h3
      simp [resolveShapeLegacy, h1, h2, h3]
    · intro hs
      cases h1 : jsStr d.shape with
      | none => simp [resolveShapeLegacy, h1]
      | some s => simp [resolveShapeLegacy, h1, (hs s h1).1, (hs s h1).2]

/-- Witness for C4: the explicit heart/classic selection beats the legacy
`shape: 'badge'` key. -/
theorem C4_resolve_precedence_witness :
    (jsStr sampleHeartDesign.shapeCategory = some "heart" ∧
      jsStr sampleHeartDesign.shapeVariation = some "classic") ∧
    resolveShape SHAPE_LIBRARY sampleHeartDesign = ⟨"heart", some "classic", some heartClassic⟩ :=
  ⟨⟨by decide, by decide⟩,
    (C4_resolve_precedence sampleHeartDesign).1 "heart" "classic"
      ⟨[("classic", heartClassic), ("rounded", heartRounded)]⟩ heartClassic
      (by decide) (by decide) (by decide) (by decide)⟩

/-! ## C6: pond geometry (seams and isolated blobs) -/

/-- `(l.flatMap f).length` as a sum of the pieces' lengths. -/
theorem length_flatMap' {α β : Type} (l : List α) (f : α → List β) :
    (l.flatMap f).length = (l.map fun a => (f a).length).sum := by
  rw [List.flatMap_def, List.length_flatten, List.map_map]
  rfl

/-- A `filterMap` that guards a `some` with a boolean keeps exactly the
`filter`'s length. -/
theorem length_filterMap_ite {α : Type} (p : ℕ → Bool) (f : ℕ → α) (l : List ℕ) :
    (l.filterMap fun c => if p c then some (f c) else none).length = (l.filter p).length := by
  induction l with
  | nil => rfl
  | cons a t ih =>
    by_cases h : p a = true <;> simp [List.filterMap_cons, List.filter_cons, h, ih]

/-- In-bounds `gd` access is the grid itself. -/
theorem pondGd_inb (G : ℕ → ℕ → Bool) (rows cols r c : ℕ) (hr : r < rows) (hc : c < cols) :
    pondGd G rows cols (r : ℤ) (c : ℤ) = G r c := by
  unfold pondGd
  rw [Int.toNat_natCast, Int.toNat_natCast]
  rw [decide_eq_true (show (0 : ℤ) ≤ (r : ℤ) from Int.natCast_nonneg r)]
  rw [decide_eq_true (show (r : ℤ) < (rows : ℤ) by exact_mod_cast hr)]
  rw [decide_eq_true (show (0 : ℤ) ≤ (c : ℤ) from Int.natCast_nonneg c)]
  rw [decide_eq_true (show (c : ℤ) < (cols : ℤ) by exact_mod_cast hc)]
  simp

/-- Out-of-bounds `gd` access is `false`. -/
theorem pondGd_oob (G : ℕ → ℕ → Bool) (rows cols : ℕ) (r c : ℤ)
    (h : r < 0 ∨ (rows : ℤ) ≤ r ∨ c < 0 ∨ (cols : ℤ) ≤ c) :
    pondGd G rows cols r c = false := by
  unfold pondGd
  rcases h with h | h | h | h
  · simp [decide_eq_false (show ¬(0 : ℤ) ≤ r by omega)]
  · simp [decide_eq_false (show ¬r < (rows : ℤ) by omega)]
  · simp [decide_eq_false (show ¬(0 : ℤ) ≤ c by omega)]
  · simp [decide_eq_false (show ¬c < (cols : ℤ) by omega)]

/-- C6: in the pond path, (1) two horizontally adjacent active cells
share the exact same boundary coordinate with no inset and no rounding on
the shared edge; (2) likewise vertically; (3) on an adjacency-free grid
every active cell is inset on all four sides with all four corners
rounded; and (4) every active cell contributes exactly one subpath. -/
theorem C6_pond_geometry (G : ℕ → ℕ → Bool) (n : ℕ) (ox oy cs inset rr : ℚ) :
    (∀ r c : ℕ, r < n → c + 1 < n → G r c = true → G r (c + 1) = true →
      (pondCell G n n ox oy cs inset r c).ri = ox + ((c : ℚ) + 1) * cs ∧
      (pondCell G n n ox oy cs inset r (c + 1)).l = ox + ((c : ℚ) + 1) * cs ∧
      (pondCell G n n ox oy cs inset r c).trR = false ∧
      (pondCell G n n ox oy cs inset r c).brR = false ∧
      (pondCell G n n ox oy cs inset r (c + 1)).tlR = false ∧
      (pondCell G n n ox oy cs inset r (c + 1)).blR = false) ∧
    (∀ r c : ℕ, r + 1 < n → c < n → G r c = true → G (r + 1) c = true →
      (pondCell G n n ox oy cs inset r c).b = oy + ((r : ℚ) + 1) * cs ∧
      (pondCell G n n ox oy cs inset (r + 1) c).t = oy + ((r : ℚ) + 1) * cs ∧
      (pondCell G n n ox oy cs inset r c).brR = false ∧
      (pondCell G n n ox oy cs inset r c).blR = false ∧
      (pondCell G n n ox oy cs inset (r + 1) c).tlR = false ∧
      (pondCell G n n ox oy cs inset (r + 1) c).trR = false) ∧
    ((∀ r c : ℕ, r < n → c + 1 < n → G r c = true → G r (c + 1) = false) →
      (∀ r c : ℕ, r + 1 < n → c < n → G r c = true → G (r + 1) c = false) →
      ∀ r c : ℕ, r < n → c < n → G r c = true →
        (pondCell G n n ox oy cs inset r c).t = oy + (r : ℚ) * cs + inset ∧
        (pondCell G n n ox oy cs inset r c).ri = ox + (c : ℚ) * cs + cs - inset ∧
        (pondCell G n n ox oy cs inset r c).b = oy + (r : ℚ) * cs + cs - inset ∧
        (pondCell G n n ox oy cs inset r c).l = ox + (c : ℚ) * cs + inset ∧
        (pondCell G n n ox oy cs inset r c).tlR = true ∧
        (pondCell G n n ox oy cs inset r c).trR = true ∧
        (pondCell G n n ox oy cs inset r c).brR = true ∧
        (pondCell G n n ox oy cs inset r c).blR = true) ∧
    (∀ rows cols : ℕ,
      (pondParts G rows cols ox oy cs inset rr).length = (activeCells G rows cols).length) := by
  have hcast1 : ∀ c : ℕ, ((c : ℤ) + 1) = ((c + 1 : ℕ) : ℤ) := by
    intro c
    push_cast
    ring
  have hcastm : ∀ c : ℕ, (((c + 1 : ℕ) : ℤ) - 1) = (c : ℤ) := by
    intro c
    push_cast
    ring
  refine ⟨?_, ?_, ?_, ?_⟩
  · intro r c hr hc h1 h2
    have hrD : pondGd G n n (r : ℤ) ((c : ℤ) + 1) = true := by
      rw [hcast1, pondGd_inb G n n r (c + 1) hr hc]
      exact h2
    have hlD : pondGd G n n (r : ℤ) (((c + 1 : ℕ) : ℤ) - 1) = true := by
      rw [hcastm, pondGd_inb G n n r c hr (by omega)]
      exact h1
    refine ⟨?_, ?_, ?_, ?_, ?_, ?_⟩ <;> simp only [pondCell, hrD, hlD] <;> simp <;> try ring
  · intro r c hr hc h1 h2
    have hbD : pondGd G n n ((r : ℤ) + 1) (c : ℤ) = true := by
      rw [hcast1, pondGd_inb G n n (r + 1) c hr hc]
      exact h2
    have htD : pondGd G n n (((r + 1 : ℕ) : ℤ) - 1) (c : ℤ) = true := by
      rw [hcastm, pondGd_inb G n n r c (by omega) hc]
      exact h1
    refine ⟨?_, ?_, ?_, ?_, ?_, ?_⟩ <;> simp only [pondCell, hbD, htD] <;> simp <;> try ring
  · intro hH hV r c hr hc hact
    have htD : pondGd G n n ((r : ℤ) - 1) (c : ℤ) = false := by
      rcases Nat.eq_zero_or_pos r with h0 | h0
      · subst h0
        exact pondGd_oob G n n _ _ (by left; omega)
      · obtain ⟨r', rfl⟩ : ∃ r', r = r' + 1 := ⟨r - 1, by omega⟩
        rw [show ((r' + 1 : ℕ) : ℤ) - 1 = (r' : ℤ) by push_cast; ring,
          pondGd_inb G n n r' c (by omega) hc]
        cases hg : G r' c with
        | false => rfl
        | true => exact absurd hact (by simp [hV r' c (by omega) hc hg])
    have hlD : pondGd G n n (r : ℤ) ((c : ℤ) - 1) = false := by
      rcases Nat.eq_zero_or_pos c with h0 | h0
      · subst h0
        exact pondGd_oob G n n _ _ (by right; right; left; omega)
      · obtain ⟨c', rfl⟩ : ∃ c', c = c' + 1 := ⟨c - 1, by omega⟩
        rw [show ((c' + 1 : ℕ) : ℤ) - 1 = (c' : ℤ) by push_cast; ring,
          pondGd_inb G n n r c' hr (by omega)]
        cases hg : G r c' with
        | false => rfl
        | true => exact absurd hact (by simp [hH r c' hr (by omega) hg])
    have hbD : pondGd G n n ((r : ℤ) + 1) (c : ℤ) = false := by
      by_cases hb : r + 1 < n
      · rw [hcast1, pondGd_inb G n n (r + 1) c hb hc]
        cases hg : G (r + 1) c with
        | false => rfl
        | true => exact absurd hg (by simp [hV r c hb hc hact])
      · exact pondGd_oob G n n _ _ (by right; left; omega)
    have hrD : pondGd G n n (r : ℤ) ((c : ℤ) + 1) = false := by
      by_cases hb : c + 1 < n
      · rw [hcast1, pondGd_inb G n n r (c + 1) hr hb]
        cases hg : G r (c + 1) with
        | false => rfl
        | true => exact absurd hg (by simp [hH r c hr hb hact])
      · exact pondGd_oob G n n _ _ (by right; right; right; omega)
    refine ⟨?_, ?_, ?_, ?_, ?_, ?_, ?_, ?_⟩ <;>
      simp only [pondCell, htD, hlD, hbD, hrD] <;> simp <;> try ring
  · intro rows cols
    unfold pondParts activeCells
    rw [length_flatMap', length_flatMap']
    congr 1
    apply List.map_congr_left
    intro r _
    rw [length_filterMap_ite (fun c => G r c)
      (fun c => pondCellPath (pondCell G rows cols ox oy cs inset r c) rr)]
    simp

/-- Witness for C6: on the two-cell grid the adjacency conjunct applies at
`(0,0)`–`(0,1)`. -/
theorem C6_pond_geometry_witness :
    (0 < 2 ∧ 0 + 1 < 2 ∧ pairGrid 0 0 = true ∧ pairGrid 0 1 = true) ∧
    (pondCell pairGrid 2 2 0 0 10 1 0 0).ri = 0 + ((0 : ℚ) + 1) * 10 ∧
    (pondCell pairGrid 2 2 0 0 10 1 0 1).l = 0 + ((0 : ℚ) + 1) * 10 ∧
    (pondCell pairGrid 2 2 0 0 10 1 0 0).trR = false ∧
    (pondCell pairGrid 2 2 0 0 10 1 0 0).brR = false ∧
    (pondCell pairGrid 2 2 0 0 10 1 0 1).tlR = false ∧
    (pondCell pairGrid 2 2 0 0 10 1 0 1).blR = false :=
  ⟨⟨by decide, by decide, by decide, by decide⟩,
    (C6_pond_geometry pairGrid 2 0 0 10 1 0).1 0 0 (by decide) (by decide) (by decide) (by decide)⟩

/-! ## C5: horizontal bar-merging -/

/-- Scanning leading ineligible cells with no open run just advances. -/
theorem runsAux_skip_false (a : ℕ) :
    ∀ (i : ℕ) (l : List Bool),
      runsAux none i (List.replicate a false ++ l) = runsAux none (i + a) l := by
  induction a with
  | zero => intro i l; rfl
  | succ k ih =>
    intro i l
    rw [List.replicate_succ, List.cons_append]
    show runsAux none (i + 1) (List.replicate k false ++ l) = _
    rw [ih]
    congr 1
    omega

/-- Scanning eligible cells keeps the open run and advances. -/
theorem runsAux_keep_true (b : ℕ) :
    ∀ (s i : ℕ) (l : List Bool),
      runsAux (some s) i (List.replicate b true ++ l) = runsAux (some s) (i + b) l := by
  induction b with
  | zero => intro s i l; rfl
  | succ k ih =>
    intro s i l
    rw [List.replicate_succ, List.cons_append]
    show runsAux (some s) (i + 1) (List.replicate k true ++ l) = _
    rw [ih]
    congr 1
    omega

/-- A trailing ineligible stretch with no open run emits nothing. -/
theorem runsAux_tail_none (a : ℕ) :
    ∀ i : ℕ, runsAux none i (List.replicate a false) = [] := by
  induction a with
  | zero => intro i; rfl
  | succ k ih =>
    intro i
    rw [List.replicate_succ]
    show runsAux none (i + 1) (List.replicate k false) = []
    exact ih (i + 1)

/-- A trailing ineligible stretch flushes the open run, once. -/
theorem runsAux_tail_some (a s i : ℕ) :
    runsAux (some s) i (List.replicate a false) = [(s, i - s)] := by
  cases a with
  | zero => rfl
  | succ k =>
    rw [List.replicate_succ]
    show (s, i - s) :: runsAux none (i + 1) (List.replicate k false) = _
    rw [runsAux_tail_none]

/-- A boolean row that is `true` exactly on `[lo, hi)` is the replicate
pattern `false^lo ++ true^(hi-lo) ++ false^(N-hi)`. -/
theorem range_map_threshold (f : ℕ → Bool) (lo hi N : ℕ) (h1 : lo ≤ hi) (h2 : hi ≤ N)
    (hf : ∀ c, c < N → (f c = true ↔ lo ≤ c ∧ c < hi)) :
    (List.range N).map f =
      List.replicate lo false ++
        (List.replicate (hi - lo) true ++ List.replicate (N - hi) false) := by
  apply List.ext_getElem?
  intro i
  rw [List.getElem?_map, List.getElem?_append, List.getElem?_append]
  simp only [List.length_replicate, List.getElem?_replicate]
  by_cases hiN : i < N
  · rw [List.getElem?_range hiN]
    simp only [Option.map_some']
    have hfi := hf i hiN
    by_cases c1 : i < lo
    · have hv : f i = false := by
        cases hfib : f i with
        | false => rfl
        | true => exact absurd (hfi.mp hfib).1 (by omega)
      simp [c1, hv]
    · by_cases c2 : i < hi
      · have hd : i - lo < hi - lo := by omega
        have hv : f i = true := hfi.mpr ⟨by omega, c2⟩
        simp [c1, hd, hv]
      · have hd1 : ¬(i - lo < hi - lo) := by omega
        have hd2 : i - lo - (hi - lo) < N - hi := by omega
        have hv : f i = false := by
          cases hfib : f i with
          | false => rfl
          | true => exact absurd (hfi.mp hfib).2 (by omega)
        simp [c1, hd1, hd2, hv]
  · rw [List.getElem?_eq_none (by simpa using hiN)]
    have c1 : ¬ i < lo := by omega
    have hd1 : ¬(i - lo < hi - lo) := by omega
    have hd2 : ¬(i - lo - (hi - lo) < N - hi) := by omega
    simp [c1, hd1, hd2]

/-- The scan of a threshold row is one maximal run `(lo, hi - lo)`. -/
theorem rowRuns_threshold (f : ℕ → Bool) (lo hi N : ℕ) (h1 : lo < hi) (h2 : hi ≤ N)
    (hf : ∀ c, c < N → (f c = true ↔ lo ≤ c ∧ c < hi)) :
    rowRuns f N = [(lo, hi - lo)] := by
  unfold rowRuns
  rw [range_map_threshold f lo hi N (by omega) h2 hf]
  obtain ⟨b', hb'⟩ : ∃ b', hi - lo = b' + 1 := ⟨hi - lo - 1, by omega⟩
  rw [hb', runsAux_skip_false, List.replicate_succ, List.cons_append]
  show runsAux (some (0 + lo)) (0 + lo + 1) (List.replicate b' true ++ _) = _
  rw [runsAux_keep_true, runsAux_tail_some]
  simp only [zero_add]
  congr 2
  omega

/-- An open run is eventually emitted with its end no earlier than the
current scan position. -/
theorem runsAux_open :
    ∀ (l : List Bool) (s i : ℕ), s ≤ i →
      ∃ len, (s, len) ∈ runsAux (some s) i l ∧ i ≤ s + len := by
  intro l
  induction l with
  | nil =>
    intro s i hsi
    exact ⟨i - s, by simp [runsAux], by omega⟩
  | cons b rest ih =>
    intro s i hsi
    cases b with
    | false => exact ⟨i - s, by simp [runsAux], by omega⟩
    | true =>
      obtain ⟨len, hmem, hle⟩ := ih s (i + 1) (by omega)
      exact ⟨len, by simpa [runsAux] using hmem, by omega⟩

/-- Every eligible position is covered by some emitted run. -/
theorem runsAux_cover :
    ∀ (l : List Bool) (st : Option ℕ) (i j : ℕ),
      (∀ s, st = some s → s ≤ i) → l.getD j false = true →
      ∃ p ∈ runsAux st i l, p.1 ≤ i + j ∧ i + j < p.1 + p.2 := by
  intro l
  induction l with
  | nil =>
    intro st i j _ h
    simp [List.getD] at h
  | cons b rest ih =>
    intro st i j hinv hj
    cases j with
    | zero =>
      have hb : b = true := by simpa using hj
      subst hb
      cases st with
      | none =>
        obtain ⟨len, hmem, hle⟩ := runsAux_open rest i (i + 1) (by omega)
        exact ⟨(i, len), by simpa [runsAux] using hmem, by omega, by omega⟩
      | some s =>
        have hs := hinv s rfl
        obtain ⟨len, hmem, hle⟩ := runsAux_open rest s (i + 1) (by omega)
        exact ⟨(s, len), by simpa [runsAux] using hmem, by omega, by omega⟩
    | succ j' =>
      have hj' : rest.getD j' false = true := by simpa using hj
      cases st with
      | none =>
        cases b with
        | false =>
          obtain ⟨p, hmem, hp1, hp2⟩ := ih none (i + 1) j' (by simp) hj'
          exact ⟨p, by simpa [runsAux] using hmem, by omega, by omega⟩
        | true =>
          obtain ⟨p, hmem, hp1, hp2⟩ :=
            ih (some i) (i + 1) j' (fun s hs => by injection hs with h; omega) hj'
          exact ⟨p, by simpa [runsAux] using hmem, by omega, by omega⟩
      | some s =>
        have hs := hinv s rfl
        cases b with
        | false =>
          obtain ⟨p, hmem, hp1, hp2⟩ := ih none (i + 1) j' (by simp) hj'
          refine ⟨p, ?_, by omega, by omega⟩
          show p ∈ runsAux (some s) i (false :: rest)
          simp only [runsAux]
          exact List.mem_cons_of_mem _ hmem
        | true =>
          obtain ⟨p, hmem, hp1, hp2⟩ :=
            ih (some s) (i + 1) j' (fun s' hs' => by injection hs' with h; omega) hj'
          exact ⟨p, by simpa [runsAux] using hmem, by omega, by omega⟩

/-- Every emitted run ends no earlier than the scan position at which it
was open, and the position just past its end is ineligible. -/
theorem runsAux_max_right :
    ∀ (l : List Bool) (st : Option ℕ) (i : ℕ),
      (∀ s, st = some s → s ≤ i) →
      ∀ p ∈ runsAux st i l, i ≤ p.1 + p.2 ∧
        (p.1 + p.2 - i < l.length → l.getD (p.1 + p.2 - i) false = false) := by
  intro l
  induction l with
  | nil =>
    intro st i hinv p hp
    cases st with
    | none => simp [runsAux] at hp
    | some s =>
      have hs := hinv s rfl
      simp only [runsAux, List.mem_singleton] at hp
      subst hp
      refine ⟨by simp; omega, ?_⟩
      intro h
      simp at h
  | cons b rest ih =>
    intro st i hinv p hp
    have step : ∀ (st' : Option ℕ), (∀ s, st' = some s → s ≤ i + 1) →
        p ∈ runsAux st' (i + 1) rest →
        i ≤ p.1 + p.2 ∧
          (p.1 + p.2 - i < (b :: rest).length → (b :: rest).getD (p.1 + p.2 - i) false = false) := by
      intro st' hinv' hmem
      obtain ⟨h1, h2⟩ := ih st' (i + 1) hinv' p hmem
      refine ⟨by omega, ?_⟩
      intro hlen
      have hrw : p.1 + p.2 - i = (p.1 + p.2 - (i + 1)) + 1 := by omega
      rw [hrw, List.getD_cons_succ]
      exact h2 (by simp at hlen ⊢; omega)
    cases st with
    | none =>
      cases b with
      | false => exact step none (by simp) (by simpa [runsAux] using hp)
      | true =>
        exact step (some i) (fun s hs => by injection hs with h; omega)
          (by simpa [runsAux] using hp)
    | some s =>
      have hs := hinv s rfl
      cases b with
      | true =>
        exact step (some s) (fun s' hs' => by injection hs' with h; omega)
          (by simpa [runsAux] using hp)
      | false =>
        simp only [runsAux, List.mem_cons] at hp
        rcases hp with hp | hp
        · subst hp
          refine ⟨by simp; omega, ?_⟩
          intro _
          have hrw : s + (i - s) - i = 0 := by omega
          rw [hrw, List.getD_cons_zero]
        · exact step none (by simp) hp

/-- `getD` of a mapped range is the function itself in range. -/
theorem getD_map_range (f : ℕ → Bool) (n j : ℕ) (hj : j < n) :
    ((List.range n).map f).getD j false = f j := by
  rw [List.getD_eq_getElem?_getD, List.getElem?_map, List.getElem?_range hj]
  rfl

/-- No two adjacent eligible cells are split across runs: the run covering
the left cell also covers the right one. -/
theorem rowRuns_no_split (elig : ℕ → Bool) (m c : ℕ) (hc : c + 1 < m)
    (h1 : elig c = true) (h2 : elig (c + 1) = true) :
    ∃ p ∈ rowRuns elig m, p.1 ≤ c ∧ c + 1 < p.1 + p.2 := by
  obtain ⟨p, hmem, hle, hlt⟩ :=
    runsAux_cover ((List.range m).map elig) none 0 c (by simp)
      (by rw [getD_map_range elig m c (by omega)]; exact h1)
  refine ⟨p, hmem, by omega, ?_⟩
  by_cases hend : c + 1 < p.1 + p.2
  · exact hend
  · exfalso
    obtain ⟨hi1, hi2⟩ := runsAux_max_right ((List.range m).map elig) none 0 (by simp) p hmem
    have hlen : p.1 + p.2 - 0 < ((List.range m).map elig).length := by
      simp only [List.length_map, List.length_range]
      omega
    have hfalse := hi2 hlen
    rw [show p.1 + p.2 - 0 = c + 1 by omega, getD_map_range elig m (c + 1) (by omega)] at hfalse
    rw [h2] at hfalse
    exact Bool.true_eq_false.mp hfalse

/-- C5: on a fully active matrix with no center-clear exclusion and side
`N ≥ 15` (every standard QR side), the horizontal bar scan produces
exactly one maximal run per row — spanning the full row width minus the
fixed finder exclusions — hence exactly `N` run-rectangles in total; and
(for any grid at all) two orthogonally adjacent eligible cells of a row
always land in one common run, never in separate runs. -/
theorem C5_bar_merge (N : ℕ) (hN : 15 ≤ N) :
    (∀ (om : JsMath) (g : Geo) (modules : Grid) (halfGap s : ℚ) (rr fill : String),
      (∀ r c : ℕ, modules.get r c = true) →
      (∀ row : ℕ, row < 7 →
        rowRuns (fun col => dataEligible om false g modules (getFinderPatternPositions N) row col) N
          = [(7, N - 14)]) ∧
      (∀ row : ℕ, 7 ≤ row → row < N - 7 →
        rowRuns (fun col => dataEligible om false g modules (getFinderPatternPositions N) row col) N
          = [(0, N)]) ∧
      (∀ row : ℕ, N - 7 ≤ row → row < N →
        rowRuns (fun col => dataEligible om false g modules (getFinderPatternPositions N) row col) N
          = [(7, N - 7)]) ∧
      (barHLines om false g modules N (getFinderPatternPositions N) halfGap s rr fill).length = N) ∧
    (∀ (m : ℕ) (elig : ℕ → Bool) (c : ℕ), c + 1 < m → elig c = true → elig (c + 1) = true →
      ∃ p ∈ rowRuns elig m, p.1 ≤ c ∧ c + 1 < p.1 + p.2) := by
  refine ⟨?_, fun m elig c hc h1 h2 => rowRuns_no_split elig m c hc h1 h2⟩
  intro om g modules halfGap s rr fill hfull
  have helig : ∀ row col : ℕ,
      dataEligible om false g modules (getFinderPatternPositions N) row col =
        (classifyFinderModule (row : ℤ) (col : ℤ) (getFinderPatternPositions N)).isNone := by
    intro row col
    unfold dataEligible isCleared
    rw [hfull row col]
    simp
  have hiff : ∀ row col : ℕ,
      ((classifyFinderModule (row : ℤ) (col : ℤ) (getFinderPatternPositions N)).isNone = true) ↔
        ¬((row < 7 ∧ col < 7) ∨ (row < 7 ∧ N - 7 ≤ col ∧ col < N) ∨
          (N - 7 ≤ row ∧ row < N ∧ col < 7)) := by
    intro row col
    have hswap : ((classifyFinderModule (row : ℤ) (col : ℤ) (getFinderPatternPositions N)).isNone = true) ↔
        ¬((classifyFinderModule (row : ℤ) (col : ℤ) (getFinderPatternPositions N)).isSome = true) := by
      cases classifyFinderModule (row : ℤ) (col : ℤ) (getFinderPatternPositions N) <;> simp
    rw [hswap, classify_isSome_iff]
    constructor
    · intro hh hcon
      exact hh (by omega)
    · intro hh hcon
      exact hh (by omega)
  have case1 : ∀ row : ℕ, row < 7 →
      rowRuns (fun col => dataEligible om false g modules (getFinderPatternPositions N) row col) N
        = [(7, N - 14)] := by
    intro row hrow
    have hf : ∀ c, c < N →
        ((fun col => dataEligible om false g modules (getFinderPatternPositions N) row col) c = true
          ↔ 7 ≤ c ∧ c < N - 7) := by
      intro c hc
      simp only [helig, hiff]
      omega
    rw [rowRuns_threshold _ 7 (N - 7) N (by omega) (by omega) hf,
      show N - 7 - 7 = N - 14 by omega]
  have case2 : ∀ row : ℕ, 7 ≤ row → row < N - 7 →
      rowRuns (fun col => dataEligible om false g modules (getFinderPatternPositions N) row col) N
        = [(0, N)] := by
    intro row hrow1 hrow2
    have hf : ∀ c, c < N →
        ((fun col => dataEligible om false g modules (getFinderPatternPositions N) row col) c = true
          ↔ 0 ≤ c ∧ c < N) := by
      intro c hc
      simp only [helig, hiff]
      omega
    rw [rowRuns_threshold _ 0 N N (by omega) (by omega) hf, show N - 0 = N by omega]
  have case3 : ∀ row : ℕ, N - 7 ≤ row → row < N →
      rowRuns (fun col => dataEligible om false g modules (getFinderPatternPositions N) row col) N
        = [(7, N - 7)] := by
    intro row hrow1 hrow2
    have hf : ∀ c, c < N →
        ((fun col => dataEligible om false g modules (getFinderPatternPositions N) row col) c = true
          ↔ 7 ≤ c ∧ c < N) := by
      intro c hc
      simp only [helig, hiff]
      omega
    exact rowRuns_threshold _ 7 N N (by omega) (by omega) hf
  refine ⟨case1, case2, case3, ?_⟩
  unfold barHLines
  rw [length_flatMap']
  have hone : ∀ row ∈ List.range N,
      ((rowRuns (fun col => dataEligible om false g modules (getFinderPatternPositions N) row col)
          N).map (barHRectLine g halfGap s rr fill row)).length = (fun _ : ℕ => 1) row := by
    intro row hrow
    have hrowN := List.mem_range.mp hrow
    rw [List.length_map]
    by_cases hr1 : row < 7
    · rw [case1 row hr1]
      rfl
    · by_cases hr2 : row < N - 7
      · rw [case2 row (by omega) hr2]
        rfl
      · rw [case3 row (by omega) hrowN]
        rfl
  rw [List.map_congr_left hone]
  simp

/-- Witness for C5 at `N = 21` with a fully active matrix: exactly 21
bar rectangles. -/
theorem C5_bar_merge_witness :
    15 ≤ 21 ∧
      (barHLines om0 false geo0 (fullGrid 21) 21 (getFinderPatternPositions 21) 0 0 "" "").length
        = 21 :=
  ⟨by decide,
    ((C5_bar_merge 21 (by decide)).1 om0 geo0 (fullGrid 21) 0 0 "" ""
      (fun _ _ => rfl)).2.2.2⟩

/-! ## C9: derived output forms round-trip -/

/-- Decoding after encoding one valid scalar value restores it and continues. -/
theorem decode_encode_char (n : ℕ) (hv : n < 0xD800 ∨ (0xDFFF < n ∧ n < 0x110000)) (rest : List ℕ) :
    utf8DecodeScalars (utf8EncodeChar n ++ rest) = (utf8DecodeScalars rest).map (n :: ·) := by
  unfold utf8EncodeChar
  by_cases h1 : n < 0x80
  · rw [if_pos h1]
    show utf8DecodeScalars (n :: rest) = _
    rw [utf8DecodeScalars]
    rw [if_pos h1]
  · rw [if_neg h1]
    by_cases h2 : n < 0x800
    · rw [if_pos h2]
      show utf8DecodeScalars ((0xC0 + n / 64) :: (0x80 + n % 64) :: rest) = _
      rw [utf8DecodeScalars]
      have d1 : ¬(0xC0 + n / 64 < 0x80) := by omega
      have d2 : ¬(0xC0 + n / 64 < 0xC0) := by omega
      have d3 : 0xC0 + n / 64 < 0xE0 := by omega
      have dc : 0x80 ≤ 0x80 + n % 64 ∧ 0x80 + n % 64 < 0xC0 ∧
          0x80 ≤ (0xC0 + n / 64 - 0xC0) * 64 + (0x80 + n % 64 - 0x80) := by
        refine ⟨by omega, by omega, by omega⟩
      have dv : (0xC0 + n / 64 - 0xC0) * 64 + (0x80 + n % 64 - 0x80) = n := by omega
      simp only [d1, d2, d3, if_false, if_true, List.length_cons,
        List.getD_cons_zero, List.drop_succ_cons, List.drop_zero]
      rw [if_neg (by omega), if_pos dc, dv]
    · rw [if_neg h2]
      by_cases h3 : n < 0x10000
      · rw [if_pos h3]
        show utf8DecodeScalars
          ((0xE0 + n / 4096) :: (0x80 + n / 64 % 64) :: (0x80 + n % 64) :: rest) = _
        rw [utf8DecodeScalars]
        have d1 : ¬(0xE0 + n / 4096 < 0x80) := by omega
        have d2 : ¬(0xE0 + n / 4096 < 0xC0) := by omega
        have d3 : ¬(0xE0 + n / 4096 < 0xE0) := by omega
        have d4 : 0xE0 + n / 4096 < 0xF0 := by omega
        have dc : 0x80 ≤ 0x80 + n / 64 % 64 ∧ 0x80 + n / 64 % 64 < 0xC0 ∧
            0x80 ≤ 0x80 + n % 64 ∧ 0x80 + n % 64 < 0xC0 ∧
            0x800 ≤ (0xE0 + n / 4096 - 0xE0) * 4096 + (0x80 + n / 64 % 64 - 0x80) * 64 +
              (0x80 + n % 64 - 0x80) ∧
            ((0xE0 + n / 4096 - 0xE0) * 4096 + (0x80 + n / 64 % 64 - 0x80) * 64 +
                (0x80 + n % 64 - 0x80) < 0xD800 ∨
              0xE000 ≤ (0xE0 + n / 4096 - 0xE0) * 4096 + (0x80 + n / 64 % 64 - 0x80) * 64 +
                (0x80 + n % 64 - 0x80)) := by
          refine ⟨by omega, by omega, by omega, by omega, by omega, by omega⟩
        have dv : (0xE0 + n / 4096 - 0xE0) * 4096 + (0x80 + n / 64 % 64 - 0x80) * 64 +
            (0x80 + n % 64 - 0x80) = n := by omega
        simp only [d1, d2, d3, d4, if_false, if_true, List.length_cons,
          List.getD_cons_zero, List.getD_cons_succ, List.drop_succ_cons, List.drop_zero]
        rw [if_neg (by omega), if_pos dc, dv]
      · rw [if_neg h3]
        show utf8DecodeScalars
          ((0xF0 + n / 262144) :: (0x80 + n / 4096 % 64) :: (0x80 + n / 64 % 64) ::
            (0x80 + n % 64) :: rest) = _
        rw [utf8DecodeScalars]
        have hn : n < 0x110000 := by omega
        have d1 : ¬(0xF0 + n / 262144 < 0x80) := by omega
        have d2 : ¬(0xF0 + n / 262144 < 0xC0) := by omega
        have d3 : ¬(0xF0 + n / 262144 < 0xE0) := by omega
        have d4 : ¬(0xF0 + n / 262144 < 0xF0) := by omega
        have d5 : 0xF0 + n / 262144 < 0xF8 := by omega
        have dc : 0x80 ≤ 0x80 + n / 4096 % 64 ∧ 0x80 + n / 4096 % 64 < 0xC0 ∧
            0x80 ≤ 0x80 + n / 64 % 64 ∧ 0x80 + n / 64 % 64 < 0xC0 ∧
            0x80 ≤ 0x80 + n % 64 ∧ 0x80 + n % 64 < 0xC0 ∧
            0x10000 ≤ (0xF0 + n / 262144 - 0xF0) * 262144 + (0x80 + n / 4096 % 64 - 0x80) * 4096 +
              (0x80 + n / 64 % 64 - 0x80) * 64 + (0x80 + n % 64 - 0x80) ∧
            (0xF0 + n / 262144 - 0xF0) * 262144 + (0x80 + n / 4096 % 64 - 0x80) * 4096 +
              (0x80 + n / 64 % 64 - 0x80) * 64 + (0x80 + n % 64 - 0x80) < 0x110000 := by
          refine ⟨by omega, by omega, by omega, by omega, by omega, by omega, by omega, by omega⟩
        have dv : (0xF0 + n / 262144 - 0xF0) * 262144 + (0x80 + n / 4096 % 64 - 0x80) * 4096 +
            (0x80 + n / 64 % 64 - 0x80) * 64 + (0x80 + n % 64 - 0x80) = n := by omega
        simp only [d1, d2, d3, d4, d5, if_false, if_true, List.length_cons,
          List.getD_cons_zero, List.getD_cons_succ, List.drop_succ_cons, List.drop_zero]
        rw [if_neg (by omega), if_pos dc, dv]

/-- Decoding the concatenated encodings of valid scalars restores the list. -/
theorem decode_encode_list (l : List ℕ)
    (h : ∀ n ∈ l, n < 0xD800 ∨ (0xDFFF < n ∧ n < 0x110000)) :
    utf8DecodeScalars (l.flatMap utf8EncodeChar) = some l := by
  induction l with
  | nil =>
    show utf8DecodeScalars [] = some []
    rw [utf8DecodeScalars]
  | cons a t ih =>
    rw [List.flatMap_cons, decode_encode_char a (h a (by simp)),
      ih (fun n hn => h n (by simp [hn]))]
    rfl

/-- A `Char`'s scalar value is valid (below the surrogates or above them
and below `0x110000`). -/
theorem char_toNat_valid (c : Char) :
    c.toNat < 0xD800 ∨ (0xDFFF < c.toNat ∧ c.toNat < 0x110000) := by
  rcases c.valid with h | ⟨ha, hb⟩
  · left
    exact h
  · right
    exact ⟨ha, hb⟩

/-- UTF-8 decoding inverts UTF-8 encoding on every string. -/
theorem utf8_roundtrip (s : String) : utf8Decode (utf8Encode s) = some s := by
  unfold utf8Decode utf8Encode
  have hflat : s.data.flatMap (fun c => utf8EncodeChar c.toNat) =
      (s.data.map Char.toNat).flatMap utf8EncodeChar := by
    rw [List.flatMap_map]
  rw [hflat, decode_encode_list _ (by
    intro n hn
    obtain ⟨c, _, rfl⟩ := List.mem_map.mp hn
    exact char_toNat_valid c)]
  simp only [Option.map_some', List.map_map]
  have hid : Char.ofNat ∘ Char.toNat = id := funext Char.ofNat_toNat
  rw [hid, List.map_id]

/-- C9: the byte-sequence output UTF-8-decodes back to exactly the
document string `generateShapeQR` returns, and the data-URI output is the
fixed `data:image/svg+xml;base64,` prefix followed by the base64 of that
same document's UTF-8 bytes (stated through `Option` so a failing
pipeline run is covered too). -/
theorem C9_derived_outputs (enc : Encoder) (om : JsMath) (data : String) (options : Options) :
    (generateShapeQRBuffer enc om data options).bind utf8Decode =
      generateShapeQR enc om data options ∧
    generateShapeQRDataURI enc om data options =
      (generateShapeQRBuffer enc om data options).map
        (fun bs => "data:image/svg+xml;base64," ++ base64Encode bs) := by
  unfold generateShapeQRBuffer generateShapeQRDataURI
  cases generateShapeQR enc om data options with
  | none => exact ⟨rfl, rfl⟩
  | some svg =>
    refine ⟨?_, rfl⟩
    simp only [Option.map_some', Option.some_bind]
    exact utf8_roundtrip svg

/-! ## C3: determinism -/

/-- C3: the generation pipeline is a pure function of its inputs — the
embedding has no dependence on call order, wall-clock time or external
randomness (the only environment dependence is the fixed runtime `Math`
oracle `om`) — so two invocations on equal `(data, options)` pairs, and
two `buildSVG` runs on equal `(grid, layout, shape, options)` tuples,
produce byte-identical documents. -/
theorem C3_determinism (enc : Encoder) (om : JsMath) (data1 data2 : String) (o1 o2 : Options)
    (g1 g2 : Grid) (mc1 mc2 : ℕ) (ms1 ms2 : ℚ) (sd1 sd2 : ShapeVariation)
    (hd : data1 = data2) (ho : o1 = o2) (hg : g1 = g2) (hmc : mc1 = mc2)
    (hms : ms1 = ms2) (hsd : sd1 = sd2) :
    generateShapeQR enc om data1 o1 = generateShapeQR enc om data2 o2 ∧
    buildSVG om g1 mc1 ms1 sd1 o1 = buildSVG om g2 mc2 ms2 sd2 o2 := by
  subst hd ho hg hmc hms hsd
  exact ⟨rfl, rfl⟩

/-- Witness for C3 at a concrete invocation pair. -/
theorem C3_determinism_witness :
    ("https://example.com" : String) = "https://example.com" ∧
      generateShapeQR encStub om0 "https://example.com" DEFAULT_OPTIONS =
        generateShapeQR encStub om0 "https://example.com" DEFAULT_OPTIONS :=
  ⟨rfl,
    (C3_determinism encStub om0 "https://example.com" "https://example.com"
      DEFAULT_OPTIONS DEFAULT_OPTIONS (fullGrid 21) (fullGrid 21) 21 21 1 1
      shieldClassic shieldClassic rfl rfl rfl rfl rfl rfl).1⟩

/-! ## C2: empty gradient color list is not rejected (code bug) -/

set_option maxRecDepth 1000000 in
unseal Rat.mul Rat.add Rat.sub Rat.inv Rat.ofScientific in
/-- C2 (divergence evaluation): a gradient spec with an empty color list
is NOT rejected.  `buildGradientDef` maps over the empty color list and
yields a gradient definition with zero `<stop>` elements, and
`generateShapeQR` returns a complete document (it contains the stop-less
`<radialGradient>`), rather than failing fast with a configuration
error as the specification requires. -/
theorem C2_empty_gradient_not_rejected :
    (∀ om : JsMath,
      buildGradientDef om { type := "radial", colors := [], angle := none, stops := none } "    " =
        "    <radialGradient id=\"qrGradient\" cx=\"50%\" cy=\"50%\" r=\"60%\">\n\n    </radialGradient>") ∧
    (generateShapeQR encStub om0 "x" optsEmptyGradient).isSome = true ∧
    strHasInfix ((generateShapeQR encStub om0 "x" optsEmptyGradient).getD "") "<radialGradient" = true ∧
    strHasInfix ((generateShapeQR encStub om0 "x" optsEmptyGradient).getD "") "<stop" = false := by
  refine ⟨fun om => rfl, ?_⟩
  decide

/-! ## C1: transparent background + solid finders (code bug) -/

/-- In solid finder mode `buildSVG` always emits (whatever the
background, transparent included) a solid finder shape filled with the
literal background color: the space shape of the first finder stack. -/
theorem solid_space_mem (om : JsMath) (modules : Grid) (mc : ℕ) (ms : ℚ)
    (sd : ShapeVariation) (opts : Options) (hsolid : opts.finderPattern = "solid") :
    ∃ x y sz rrv,
      ("    " ++ renderSolidFinderShape x y sz (jsOrStr opts.finderOuterStyle "rounded")
          opts.colors.background rrv) ∈ buildSVGLines om modules mc ms sd opts := by
  apply Exists.intro
  apply Exists.intro
  apply Exists.intro
  apply Exists.intro
  unfold buildSVGLines
  rw [hsolid]
  apply List.mem_append_left
  apply List.mem_append_left
  apply List.mem_append_left
  apply List.mem_append_left
  apply List.mem_append_left
  apply List.mem_append_right
  rw [if_pos rfl]
  unfold solidFinderLines getFinderPatternPositions
  rw [List.flatMap_cons]
  apply List.mem_append_left
  exact List.mem_cons_of_mem _ (List.mem_cons_self _ _)

set_option maxRecDepth 1000000 in
unseal Rat.mul Rat.add Rat.sub Rat.inv Rat.ofScientific in
/-- C1 (divergence evaluation): in solid finder mode the document always
contains a solid finder shape element filled with the literal background
color (the space shape stacked over the outer shape), for every
configuration — in particular for every transparent-background one — and
on the concrete transparent failing input the returned document carries
`fill="transparent"` shapes and no hole-producing even-odd ring path at
all, contradicting the specification and the library's own README
("Finder pattern gaps are rendered as true cutouts"). -/
theorem C1_transparent_solid_no_ring :
    (∀ (om : JsMath) (modules : Grid) (mc : ℕ) (ms : ℚ) (sd : ShapeVariation) (opts : Options),
      opts.finderPattern = "solid" →
      ∃ x y sz rrv,
        ("    " ++ renderSolidFinderShape x y sz (jsOrStr opts.finderOuterStyle "rounded")
            opts.colors.background rrv) ∈ buildSVGLines om modules mc ms sd opts) ∧
    optsTransparentSolid.colors.background = "transparent" ∧
    optsTransparentSolid.finderPattern = "solid" ∧
    strHasInfix transparentSolidDoc "fill=\"transparent\"" = true ∧
    strHasInfix transparentSolidDoc "evenodd" = false ∧
    strHasInfix transparentSolidDoc "fill-rule" = false := by
  refine ⟨fun om modules mc ms sd opts hsolid =>
    solid_space_mem om modules mc ms sd opts hsolid, rfl, rfl, ?_⟩
  decide

end QRStyler
